import Mathlib

/-!
Verification of the JSON deserialization engine of `ton-dev-block-json`
(`src/deserialize.rs`) against its natural-language specification.

The development shallowly embeds the source: JSON values become an inductive
type mirroring `serde_json::Value` (integer-valued numbers carry an `Int`;
non-integer numbers are an opaque `float` constructor on which `as_i64` and
`as_u64` return `none`, as in serde), fallible Rust functions returning
`Result<T>` become `Except String T` carrying the source's error messages,
and machine-integer casts (`as u8`/`u16`/`u32`/`u64`/`i32`) become explicit
Euclidean remainders modulo the target width.

External collaborators from the `ton_dev_block` / `ton_api` crates (hash and
base64 codecs, `Grams`, config-set insertion, boc decoding, validator-set and
signature constructors) are outside this repository; they are modelled from
the spec's description of them, each marked with a doc comment.
-/

/-- JSON values, mirroring `serde_json::Value`.  Integer-valued numbers carry
an unbounded `Int`; `float` stands for a number that is not representable as
`i64`/`u64` (on which serde's `as_i64`/`as_u64` return `None`). -/
inductive JVal where
  | null
  | bool (b : Bool)
  | num (n : Int)
  | float
  | str (s : String)
  | arr (xs : List JVal)
  | obj (fields : List (String × JVal))
deriving Repr

/-- A JSON object: ordered association list of fields (keys are unique in
well-formed JSON; lookup takes the first match like `serde_json::Map::get`). -/
abbrev JMap := List (String × JVal)

/-- `serde_json::Map::get`. -/
def jlookup (m : JMap) (name : String) : Option JVal :=
  match m.find? (fun kv => kv.1 = name) with
  | some kv => some kv.2
  | none => none

namespace JVal

/-- `Value::as_i64`: some iff the value is an integer number in `i64` range. -/
def as_i64 : JVal → Option Int
  | .num n => if -(2 ^ 63) ≤ n ∧ n < 2 ^ 63 then some n else none
  | _ => none

/-- `Value::as_u64`: some iff the value is an integer number in `u64` range. -/
def as_u64 : JVal → Option Nat
  | .num n => if 0 ≤ n ∧ n < 2 ^ 64 then some n.toNat else none
  | _ => none

/-- `Value::as_str`. -/
def as_str : JVal → Option String
  | .str s => some s
  | _ => none

/-- `Value::as_bool`. -/
def as_bool : JVal → Option Bool
  | .bool b => some b
  | _ => none

/-- `Value::as_object`. -/
def as_object : JVal → Option JMap
  | .obj m => some m
  | _ => none

/-- `Value::as_array`. -/
def as_array : JVal → Option (List JVal)
  | .arr xs => some xs
  | _ => none

end JVal

/-! ## Numeric and codec primitives

Decimal/hex parsing mirrors Rust's `i64::from_str` / `i64::from_str_radix`
(optional sign, at least one digit, overflow check against the i64 range).
-/

/-- Value of a decimal digit character. -/
def decDigit? (c : Char) : Option Nat :=
  if '0' ≤ c ∧ c ≤ '9' then some (c.toNat - '0'.toNat) else none

/-- Value of a hexadecimal digit character (both cases accepted). -/
def hexDigit? (c : Char) : Option Nat :=
  if '0' ≤ c ∧ c ≤ '9' then some (c.toNat - '0'.toNat)
  else if 'a' ≤ c ∧ c ≤ 'f' then some (c.toNat - 'a'.toNat + 10)
  else if 'A' ≤ c ∧ c ≤ 'F' then some (c.toNat - 'A'.toNat + 10)
  else none

/-- Parse a non-empty run of digits in the given base; `none` on an empty
list or any non-digit. -/
def parseNatDigits (digit? : Char → Option Nat) (base : Nat) (cs : List Char) :
    Option Nat :=
  match cs with
  | [] => none
  | _ =>
    cs.foldl (fun acc c =>
      match acc, digit? c with
      | some a, some d => some (a * base + d)
      | _, _ => none) (some 0)

/-- Parse an optional `+`/`-` sign followed by digits, as Rust's signed
`from_str` family does. -/
def parseSignedChars (digit? : Char → Option Nat) (base : Nat)
    (cs : List Char) : Option Int :=
  match cs with
  | '+' :: rest => (parseNatDigits digit? base rest).map Int.ofNat
  | '-' :: rest => (parseNatDigits digit? base rest).map (fun n => -(n : Int))
  | _ => (parseNatDigits digit? base cs).map Int.ofNat

/-- `parseSignedChars` over a string. -/
def parseSigned (digit? : Char → Option Nat) (base : Nat) (s : String) :
    Option Int :=
  parseSignedChars digit? base s.data

/-- Rust's `str::strip_prefix("0x")` as a character-list match. -/
def strip0x (s : String) : Option (List Char) :=
  match s.data with
  | '0' :: 'x' :: rest => some rest
  | _ => none

/-- `i64::from_str`: decimal with sign, failing outside the i64 range. -/
def i64_from_str (s : String) : Option Int :=
  match parseSigned decDigit? 10 s with
  | some n => if -(2 ^ 63) ≤ n ∧ n < 2 ^ 63 then some n else none
  | none => none

/-- `i64::from_str_radix(_, 16)` applied to stripped characters:
hexadecimal with sign, i64 range check. -/
def i64_from_hex_chars (cs : List Char) : Option Int :=
  match parseSignedChars hexDigit? 16 cs with
  | some n => if -(2 ^ 63) ≤ n ∧ n < 2 ^ 63 then some n else none
  | none => none

/-- `u32::from_str`: unsigned decimal (optional `+`), u32 range check. -/
def u32_from_str (s : String) : Option Nat :=
  match parseSigned decDigit? 10 s with
  | some n => if 0 ≤ n ∧ n < 2 ^ 32 then some n.toNat else none
  | none => none

/-- `u64::from_str_radix(_, 16)`: unsigned hexadecimal, u64 range check. -/
def u64_from_hex_str (s : String) : Option Nat :=
  match parseSigned hexDigit? 16 s with
  | some n => if 0 ≤ n ∧ n < 2 ^ 64 then some n.toNat else none
  | none => none

/-- Rust `as u8` on an `i64`: low 8 bits (Euclidean remainder). -/
def u8_cast (n : Int) : Nat := (n % (2 ^ 8 : Int)).toNat

/-- Rust `as u16` on an `i64`: low 16 bits. -/
def u16_cast (n : Int) : Nat := (n % (2 ^ 16 : Int)).toNat

/-- Rust `as u32` on an `i64`: low 32 bits. -/
def u32_cast (n : Int) : Nat := (n % (2 ^ 32 : Int)).toNat

/-- Rust `as u64` on an `i64`: low 64 bits. -/
def u64_cast (n : Int) : Nat := (n % (2 ^ 64 : Int)).toNat

/-- Rust `as i32` on an `i64`: low 32 bits reinterpreted as signed. -/
def i32_cast (n : Int) : Int :=
  let m := (n % (2 ^ 32 : Int)).toNat
  if m < 2 ^ 31 then (m : Int) else (m : Int) - 2 ^ 32

/-- Rust `as u16` applied to a `u64` value. -/
def u16_of_u64 (n : Nat) : Nat := n % 2 ^ 16

/-- Rust `as u32` applied to a `u64` value. -/
def u32_of_u64 (n : Nat) : Nat := n % 2 ^ 32

/-- Modelled from the spec: `UInt256` values are fixed 256-bit hashes; we
carry them as `Nat`. -/
abbrev UInt256 := Nat

/-- Modelled from the spec: the black-box `FromStr` hash codec of the external
block crate — "parses a hex string into a fixed 256-bit value"; accepts
exactly 64 hex digits. -/
def uint256_from_str (s : String) : Option UInt256 :=
  if s.length = 64 then parseNatDigits hexDigit? 16 s.data else none

/-- Modelled from the spec: black-box `hex::decode` codec; accepts an
even-length string of hex digits and yields its bytes. -/
def hex_decode (s : String) : Option (List Nat) :=
  let rec go : List Char → Option (List Nat)
    | [] => some []
    | [_] => none
    | hi :: lo :: rest =>
      match hexDigit? hi, hexDigit? lo, go rest with
      | some h, some l, some bs => some ((h * 16 + l) :: bs)
      | _, _, _ => none
  go s.data

/-- Value of a base64-alphabet character. -/
def base64Digit? (c : Char) : Option Nat :=
  if 'A' ≤ c ∧ c ≤ 'Z' then some (c.toNat - 'A'.toNat)
  else if 'a' ≤ c ∧ c ≤ 'z' then some (c.toNat - 'a'.toNat + 26)
  else if '0' ≤ c ∧ c ≤ '9' then some (c.toNat - '0'.toNat + 52)
  else if c = '+' then some 62
  else if c = '/' then some 63
  else none

/-- Modelled from the spec: the black-box `base64_decode` codec primitive;
decodes standard base64 in 4-character groups with `=` padding on the final
group, the empty string decoding to no bytes. -/
def base64_decode (s : String) : Option (List Nat) :=
  let rec go : List Char → Option (List Nat)
    | [] => some []
    | [a, b, '=', '='] =>
      match base64Digit? a, base64Digit? b with
      | some x, some y =>
        if y % 16 = 0 then some [x * 4 + y / 16] else none
      | _, _ => none
    | [a, b, c, '='] =>
      match base64Digit? a, base64Digit? b, base64Digit? c with
      | some x, some y, some z =>
        if z % 4 = 0 then some [x * 4 + y / 16, (y % 16) * 16 + z / 4] else none
      | _, _, _ => none
    | a :: b :: c :: d :: rest =>
      match base64Digit? a, base64Digit? b, base64Digit? c, base64Digit? d,
          go rest with
      | some x, some y, some z, some w, some bs =>
        some ((x * 4 + y / 16) :: ((y % 16) * 16 + z / 4) :: ((z % 4) * 64 + w) :: bs)
      | _, _, _, _, _ => none
    | _ => none
  go s.data

/-- Modelled from the spec: `Grams` is an "arbitrary-precision non-negative
amount type" of the external block crate; carried as `Nat`. -/
abbrev Grams := Nat

/-- Modelled from the spec: `Grams::from_str` parses a decimal string
(§4.2: the grams decoder "never accepts hex"). -/
def grams_from_str (s : String) : Option Grams :=
  parseNatDigits decDigit? 10 s.data

/-! ## The path-tracked accessor (`PathMap`) -/

/-- `PathMap`: a JSON object together with the dotted path that reached it. -/
structure PathMap where
  map : JMap
  path : List String
deriving Repr

namespace PathMap

/-- `PathMap::new`. -/
def new (m : JMap) : PathMap := ⟨m, ["root"]⟩

/-- `self.path.join("/")`. -/
def pathStr (pm : PathMap) : String := String.intercalate "/" pm.path

/-- `PathMap::cont`: derive a child context from an array element that must
itself be a JSON object. -/
def cont (prev : PathMap) (name : String) (value : JVal) :
    Except String PathMap :=
  match value.as_object with
  | some m => .ok ⟨m, prev.path ++ [name]⟩
  | none =>
    .error (prev.pathStr ++ "/" ++ name ++ " must be the vector of objects")

/-- `PathMap::get_item`. -/
def get_item (pm : PathMap) (name : String) : Except String JVal :=
  match jlookup pm.map name with
  | some v => .ok v
  | none =>
    .error (pm.pathStr ++ " must have the field `" ++ name ++ "`")

/-- `PathMap::get_obj`. -/
def get_obj (pm : PathMap) (name : String) : Except String PathMap := do
  let item ← pm.get_item name
  match item.as_object with
  | some m => .ok ⟨m, pm.path ++ [name]⟩
  | none => .error (pm.pathStr ++ "/" ++ name ++ " must be the object")

/-- `PathMap::get_vec`. -/
def get_vec (pm : PathMap) (name : String) : Except String (List JVal) := do
  let item ← pm.get_item name
  match item.as_array with
  | some xs => .ok xs
  | none => .error (pm.pathStr ++ "/" ++ name ++ " must be the vector")

/-- `PathMap::get_str`. -/
def get_str (pm : PathMap) (name : String) : Except String String := do
  let item ← pm.get_item name
  match item.as_str with
  | some s => .ok s
  | none => .error (pm.pathStr ++ "/" ++ name ++ " must be the string")

/-- `PathMap::get_uint256`. -/
def get_uint256 (pm : PathMap) (name : String) : Except String UInt256 := do
  let s ← pm.get_str name
  match uint256_from_str s with
  | some v => .ok v
  | none =>
    .error (pm.pathStr ++ "/" ++ name ++ " must be the uint256 in hex format : parse error")

/-- `PathMap::get_base64`. -/
def get_base64 (pm : PathMap) (name : String) : Except String (List Nat) := do
  let s ← pm.get_str name
  match base64_decode s with
  | some bs => .ok bs
  | none =>
    .error (pm.pathStr ++ "/" ++ name ++ " must be the base64 : decode error")

/-- The error text shared by the flexible numeric decoders. -/
def num_err (pm : PathMap) (name : String) (v : String) : String :=
  pm.pathStr ++ "/" ++ name ++
    " must be the integer or a string with the integer " ++ v ++ ": parse error"

/-- `PathMap::get_num`: (1) native `i64` at `name`; (2) decimal string at
`name_dec`; (3) string at `name`, hex when `0x`-prefixed, else decimal. -/
def get_num (pm : PathMap) (name : String) : Except String Int :=
  let step3 : Except String Int :=
    match jlookup pm.map name with
    | some v =>
      match v.as_str with
      | some s =>
        match strip0x s with
        | some rest =>
          match i64_from_hex_chars rest with
          | some n => .ok n
          | none => .error (pm.num_err name (String.mk rest))
        | none =>
          match i64_from_str s with
          | some n => .ok n
          | none => .error (pm.num_err name s)
      | none =>
        .error (pm.pathStr ++ "/" ++ name ++
          " must be the integer or a string with the integer")
    | none =>
      .error (pm.pathStr ++ "/" ++ name ++
        " must be the integer or a string with the integer")
  let step2 : Except String Int :=
    match jlookup pm.map (name ++ "_dec") with
    | some v =>
      match v.as_str with
      | some s =>
        match i64_from_str s with
        | some n => .ok n
        | none => .error (pm.num_err name s)
      | none => step3
    | none => step3
  match jlookup pm.map name with
  | some v =>
    match v.as_i64 with
    | some n => .ok n
    | none => step2
  | none => step2

/-- `PathMap::get_grams`: (1) native non-negative integer at `name`;
(2) decimal string at `name_dec`; (3) decimal string at `name`. -/
def get_grams (pm : PathMap) (name : String) : Except String Grams :=
  let step3 : Except String Grams :=
    match jlookup pm.map name with
    | some v =>
      match v.as_str with
      | some s =>
        match grams_from_str s with
        | some g => .ok g
        | none => .error (pm.num_err name s)
      | none =>
        .error (pm.pathStr ++ "/" ++ name ++
          " must be the integer or a string with the integer")
    | none =>
      .error (pm.pathStr ++ "/" ++ name ++
        " must be the integer or a string with the integer")
  let step2 : Except String Grams :=
    match jlookup pm.map (name ++ "_dec") with
    | some v =>
      match v.as_str with
      | some s =>
        match grams_from_str s with
        | some g => .ok g
        | none => .error (pm.num_err name s)
      | none => step3
    | none => step3
  match jlookup pm.map name with
  | some v =>
    match v.as_u64 with
    | some n => .ok n
    | none => step2
  | none => step2

/-- `PathMap::get_u32`: overwrite the slot on success, keep it on failure. -/
def get_u32 (pm : PathMap) (name : String) (value : Nat) : Nat :=
  match pm.get_num name with
  | .ok n => u32_cast n
  | .error _ => value

/-- `PathMap::get_u16`. -/
def get_u16 (pm : PathMap) (name : String) (value : Nat) : Nat :=
  match pm.get_num name with
  | .ok n => u16_cast n
  | .error _ => value

/-- `PathMap::get_u8`. -/
def get_u8 (pm : PathMap) (name : String) (value : Nat) : Nat :=
  match pm.get_num name with
  | .ok n => u8_cast n
  | .error _ => value

/-- `PathMap::get_num16`. -/
def get_num16 (pm : PathMap) (name : String) : Except String Nat :=
  (pm.get_num name).map u16_cast

/-- `PathMap::get_bool`. -/
def get_bool (pm : PathMap) (name : String) : Except String Bool := do
  let item ← pm.get_item name
  match item.as_bool with
  | some b => .ok b
  | none => .error (pm.pathStr ++ "/" ++ name ++ " must be boolean")

end PathMap

/-- `Value::as_uint256` (trait `ParseJson`). -/
def JVal.as_uint256 (v : JVal) : Except String UInt256 :=
  match v.as_str with
  | some s =>
    match uint256_from_str s with
    | some u => .ok u
    | none => .error "field hash parse error"
  | none => .error "field is not str"

/-- `Value::as_uint` (trait `ParseJson`): native `u64` truncated to u32, else
a decimal string parsed as u32, else the `u32` default 0. -/
def JVal.as_uint (v : JVal) : Except String Nat :=
  match v.as_u64 with
  | some n => .ok (u32_of_u64 n)
  | none =>
    match v.as_str with
    | some s =>
      match u32_from_str s with
      | some n => .ok n
      | none => .error "parse error"
    | none => .ok 0

/-! ## Configuration parameter payload types (`ton_dev_block` structures) -/

/-- `SlashingConfig` (p40), eight `u32` fields.  Modelled from the spec:
external type; its `Default` gives the all-zero record. -/
structure SlashingConfig where
  slashing_period_mc_blocks_count : Nat := 0
  resend_mc_blocks_count : Nat := 0
  min_samples_count : Nat := 0
  collations_score_weight : Nat := 0
  signing_score_weight : Nat := 0
  min_slashing_protection_score : Nat := 0
  z_param_numerator : Nat := 0
  z_param_denominator : Nat := 0
deriving Repr, DecidableEq

/-- `ConfigCopyleft` (p42): a grams threshold plus a `u8 → u8` rate map.
Modelled from the spec: external type with all-empty default. -/
structure ConfigCopyleft where
  copyleft_reward_threshold : Grams := 0
  license_rates : List (Nat × Nat) := []
deriving Repr, DecidableEq

/-- `FastFinalityConfig` (p61).  Modelled from the spec: external type; its
`Default` gives the all-zero record. -/
structure FastFinalityConfig where
  split_merge_interval : Nat := 0
  collator_range_len : Nat := 0
  lost_collator_timeout : Nat := 0
  mempool_validators_count : Nat := 0
  mempool_rotated_count : Nat := 0
  unreliability_fine : Nat := 0
  unreliability_weak_fading : Nat := 0
  unreliability_strong_fading : Nat := 0
  unreliability_max : Nat := 0
  unreliability_weight : Nat := 0
  familiarity_collator_fine : Nat := 0
  familiarity_msgpool_fine : Nat := 0
  familiarity_fading : Nat := 0
  familiarity_max : Nat := 0
  familiarity_weight : Nat := 0
  busyness_collator_fine : Nat := 0
  busyness_msgpool_fine : Nat := 0
  busyness_weight : Nat := 0
  candidates_percentile : Nat := 0
deriving Repr, DecidableEq

/-- `ConfigProposalSetup` (halves of p11). -/
structure ConfigProposalSetup where
  min_tot_rounds : Nat
  max_tot_rounds : Nat
  min_wins : Nat
  max_losses : Nat
  min_store_sec : Nat
  max_store_sec : Nat
  bit_price : Nat
  cell_price : Nat
deriving Repr, DecidableEq

/-- `ParamLimits` (inside p22/p23).  The external `with_limits` constructor is
modelled from the spec as assembling the record. -/
structure ParamLimits where
  underload : Nat
  soft_limit : Nat
  hard_limit : Nat
deriving Repr, DecidableEq

/-- `BlockLimits` (p22/p23). -/
structure BlockLimits where
  bytes : ParamLimits
  gas : ParamLimits
  lt_delta : ParamLimits
deriving Repr, DecidableEq

/-- `MsgForwardPrices` (p24/p25). -/
structure MsgForwardPrices where
  lump_price : Nat
  bit_price : Nat
  cell_price : Nat
  ihr_price_factor : Nat
  first_frac : Nat
  next_frac : Nat
deriving Repr, DecidableEq

/-- `GasLimitsPrices` (p20/p21). -/
structure GasLimitsPrices where
  gas_price : Nat
  gas_limit : Nat
  special_gas_limit : Nat
  gas_credit : Nat
  block_gas_limit : Nat
  freeze_due_limit : Nat
  delete_due_limit : Nat
  flat_gas_limit : Nat
  flat_gas_price : Nat
  max_gas_threshold : Nat
deriving Repr, DecidableEq

/-- `StoragePrices` (elements of p18). -/
structure StoragePrices where
  utime_since : Nat
  bit_price_ps : Nat
  cell_price_ps : Nat
  mc_bit_price_ps : Nat
  mc_cell_price_ps : Nat
deriving Repr, DecidableEq

/-- `CatchainConfig` (p28). -/
structure CatchainConfig where
  shuffle_mc_validators : Bool
  isolate_mc_validators : Bool
  mc_catchain_lifetime : Nat
  shard_catchain_lifetime : Nat
  shard_validators_lifetime : Nat
  shard_validators_num : Nat
deriving Repr, DecidableEq

/-- `ConsensusConfig` (p29). -/
structure ConsensusConfig where
  new_catchain_ids : Bool
  round_candidates : Nat
  next_candidate_delay_ms : Nat
  consensus_timeout_ms : Nat
  fast_attempts : Nat
  attempt_duration : Nat
  catchain_max_deps : Nat
  max_block_bytes : Nat
  max_collated_bytes : Nat
deriving Repr, DecidableEq

/-- `DelectorParams` (p30). -/
structure DelectorParams where
  delections_step : Nat
  validator_init_code_hash : UInt256
  staker_init_code_hash : UInt256
deriving Repr, DecidableEq

/-- `SmftParams` (p62), twenty numeric fields plus one flag. -/
structure SmftParams where
  min_forwarding_neighbours_count : Nat
  max_forwarding_neighbours_count : Nat
  min_far_neighbours_count : Nat
  max_far_neighbours_count : Nat
  min_block_sync_period_ms : Nat
  max_block_sync_period_ms : Nat
  min_far_neighbours_sync_period_ms : Nat
  max_far_neighbours_sync_period_ms : Nat
  far_neighbours_resync_period_ms : Nat
  block_sync_lifetime_period_ms : Nat
  block_lifetime_period_ms : Nat
  verification_obligation_cutoff_numerator : Nat
  verification_obligation_cutoff_denominator : Nat
  delivery_cutoff_numerator : Nat
  delivery_cutoff_denominator : Nat
  manual_candidate_loading_delay_ms : Nat
  mc_allowed_force_delivery_delay_ms : Nat
  mc_force_delivery_duplication_factor_numerator : Nat
  mc_force_delivery_duplication_factor_denominator : Nat
  mc_max_delivery_waiting_timeout_ms : Nat
  use_debug_bls_keys : Bool
deriving Repr, DecidableEq

/-- `WorkchainFormat` (inside p12 descriptors). -/
inductive WorkchainFormat where
  | basic (vm_version : Int) (vm_mode : Nat)
  | extended (min_addr_len max_addr_len addr_len_step workchain_type_id : Nat)
deriving Repr, DecidableEq

/-- `WorkchainDescr` (elements of p12).  External setters `set_min_split` /
`set_max_split` are modelled from the spec as plain field stores. -/
structure WorkchainDescr where
  enabled_since : Nat := 0
  min_split : Nat := 0
  max_split : Nat := 0
  flags : Nat := 0
  active : Bool := false
  accept_msgs : Bool := false
  zerostate_root_hash : UInt256 := 0
  zerostate_file_hash : UInt256 := 0
  version : Nat := 0
  format : WorkchainFormat := .basic 0 0
deriving Repr, DecidableEq

/-- `ValidatorDescr`: public key bytes, weight, optional adnl address,
optional 48-byte BLS key. -/
structure ValidatorDescr where
  public_key : List Nat
  weight : Nat
  adnl_addr : Option UInt256
  bls_public_key : Option (List Nat)
deriving Repr, DecidableEq

/-- `ValidatorSet`: validity window, main count, ordered descriptor list. -/
structure ValidatorSet where
  utime_since : Nat
  utime_until : Nat
  main : Nat
  list : List ValidatorDescr
deriving Repr, DecidableEq

/-- Modelled from the spec: the external `ValidatorSet::new` constructor,
which rejects an empty descriptor list. -/
def ValidatorSet.new (utime_since utime_until main : Nat)
    (list : List ValidatorDescr) : Except String ValidatorSet :=
  if list.isEmpty then .error "empty validator set"
  else .ok ⟨utime_since, utime_until, main, list⟩

/-- Modelled from the spec: external `SigPubKey::from_bytes`, requiring a
32-byte key. -/
def SigPubKey.from_bytes (bytes : List Nat) : Except String (List Nat) :=
  if bytes.length = 32 then .ok bytes else .error "invalid public key length"

/-- `CryptoSignature` as its (r, s) halves. -/
structure CryptoSignature where
  r : List Nat
  s : List Nat
deriving Repr, DecidableEq

/-- Modelled from the spec: external `CryptoSignature::from_r_s_str`, decoding
two 32-byte hex halves. -/
def CryptoSignature.from_r_s_str (r s : String) : Except String CryptoSignature :=
  match hex_decode r, hex_decode s with
  | some rb, some sb =>
    if rb.length = 32 ∧ sb.length = 32 then .ok ⟨rb, sb⟩
    else .error "invalid signature length"
  | _, _ => .error "invalid signature hex"

/-- `ValidatorTempKey` (elements of p39). -/
structure ValidatorTempKey where
  adnl_addr : UInt256
  temp_public_key : List Nat
  seqno : Nat
  valid_until : Nat
deriving Repr, DecidableEq

/-- `ValidatorSignedTempKey` (elements of p39). -/
structure ValidatorSignedTempKey where
  key : ValidatorTempKey
  signature : CryptoSignature
deriving Repr, DecidableEq

/-- `ShardIdent`: a workchain id and a tagged shard prefix. -/
structure ShardIdent where
  wc : Int
  shard_pfx : Nat
deriving Repr, DecidableEq

/-- `SHARD_FULL`, the full-shard tagged prefix. -/
def SHARD_FULL : Nat := 0x8000000000000000

/-- `MASTERCHAIN_ID`. -/
def MASTERCHAIN_ID : Int := -1

/-- `ShardIdent::masterchain()`. -/
def ShardIdent.masterchain : ShardIdent := ⟨MASTERCHAIN_ID, SHARD_FULL⟩

/-- Modelled from the spec: external `ShardIdent::with_tagged_pfx`
constructor (rejects a prefix with no tag bit). -/
def ShardIdent.withTaggedPfx (wc : Int) (pfx : Nat) : Except String ShardIdent :=
  if pfx = 0 then .error "invalid shard prefix" else .ok ⟨wc, pfx⟩

/-- `BlockIdExt`. -/
structure BlockIdExt where
  shard_id : ShardIdent
  seq_no : Nat
  root_hash : UInt256
  file_hash : UInt256
deriving Repr, DecidableEq

/-- `BlockIdExt::default()`: zeroed identifier over the zero workchain. -/
def BlockIdExt.default : BlockIdExt := ⟨⟨0, SHARD_FULL⟩, 0, 0, 0⟩

/-- `ConnectedNwConfig` (elements of p58). -/
structure ConnectedNwConfig where
  zerostate : BlockIdExt
  is_active : Bool
  currency_id : Nat
  init_block : BlockIdExt
  emergency_guard_addr : UInt256
  pull_addr : UInt256
  minter_addr : UInt256
  hardforks : List BlockIdExt
deriving Repr, DecidableEq

/-- `ConfigParamEnum`: the tagged union of configuration parameters set by
`StateParser::parse_config`, keyed by the numeric identifier. -/
inductive ConfigParamEnum where
  | param0 (config_addr : UInt256)
  | param1 (elector_addr : UInt256)
  | param2 (minter_addr : UInt256)
  | param3 (fee_collector_addr : UInt256)
  | param4 (dns_root_addr : UInt256)
  | param5 (owner_addr : UInt256)
  | param6 (mint_new_price mint_add_price : Grams)
  | param7 (to_mint : List (Nat × Nat))
  | param8 (version : Nat) (capabilities : Nat)
  | param9 (mandatory_params : List Nat)
  | param10 (critical_params : List Nat)
  | param11 (normal_params critical_params : ConfigProposalSetup)
  | param12 (workchains : List (Nat × WorkchainDescr))
  | param13 (cell : List Nat)
  | param14 (masterchain_block_fee basechain_block_fee : Grams)
  | param15 (validators_elected_for elections_start_before
      elections_end_before stake_held_for : Nat)
  | param16 (min_validators max_validators max_main_validators : Nat)
  | param17 (min_stake max_stake min_total_stake : Grams)
      (max_stake_factor : Nat)
  | param18 (map : List (Nat × StoragePrices))
  | param20 (gas : GasLimitsPrices)
  | param21 (gas : GasLimitsPrices)
  | param22 (limits : BlockLimits)
  | param23 (limits : BlockLimits)
  | param24 (prices : MsgForwardPrices)
  | param25 (prices : MsgForwardPrices)
  | param28 (c : CatchainConfig)
  | param29 (consensus_config : ConsensusConfig)
  | param30 (d : DelectorParams)
  | param31 (fundamental_smc_addr : List UInt256)
  | param32 (prev_validators : ValidatorSet)
  | param33 (prev_temp_validators : ValidatorSet)
  | param34 (cur_validators : ValidatorSet)
  | param35 (cur_temp_validators : ValidatorSet)
  | param36 (next_validators : ValidatorSet)
  | param37 (next_temp_validators : ValidatorSet)
  | param39 (validator_keys : List (UInt256 × ValidatorSignedTempKey))
  | param40 (slashing_config : SlashingConfig)
  | param42 (copyleft : ConfigCopyleft)
  | param44 (suspended : List (Int × UInt256))
  | param58 (mesh : List (Int × ConnectedNwConfig))
  | param61 (ff : FastFinalityConfig)
  | param62 (smft : SmftParams)
deriving Repr, DecidableEq

/-- The numeric identifier a `ConfigParamEnum` variant is keyed by. -/
def ConfigParamEnum.id : ConfigParamEnum → Nat
  | .param0 _ => 0
  | .param1 _ => 1
  | .param2 _ => 2
  | .param3 _ => 3
  | .param4 _ => 4
  | .param5 _ => 5
  | .param6 _ _ => 6
  | .param7 _ => 7
  | .param8 _ _ => 8
  | .param9 _ => 9
  | .param10 _ => 10
  | .param11 _ _ => 11
  | .param12 _ => 12
  | .param13 _ => 13
  | .param14 _ _ => 14
  | .param15 _ _ _ _ => 15
  | .param16 _ _ _ => 16
  | .param17 _ _ _ _ => 17
  | .param18 _ => 18
  | .param20 _ => 20
  | .param21 _ => 21
  | .param22 _ => 22
  | .param23 _ => 23
  | .param24 _ => 24
  | .param25 _ => 25
  | .param28 _ => 28
  | .param29 _ => 29
  | .param30 _ => 30
  | .param31 _ => 31
  | .param32 _ => 32
  | .param33 _ => 33
  | .param34 _ => 34
  | .param35 _ => 35
  | .param36 _ => 36
  | .param37 _ => 37
  | .param39 _ => 39
  | .param40 _ => 40
  | .param42 _ => 42
  | .param44 _ => 44
  | .param58 _ => 58
  | .param61 _ => 61
  | .param62 _ => 62

/-- `ConfigParams`: the configuration set — insertion-ordered mapping from
parameter identifier to parameter, plus the `config_addr` field the state
assembler fills separately. -/
structure ConfigParams where
  config_addr : UInt256 := 0
  params : List (Nat × ConfigParamEnum) := []
deriving Repr, DecidableEq

/-- Modelled from the spec: the external `ConfigParams::set_config` collaborator
— "write a config parameter into a config set (fails on duplicate/invalid)";
§3: "setting a duplicate is an error". -/
def ConfigParams.set_config (c : ConfigParams) (p : ConfigParamEnum) :
    Except String ConfigParams :=
  if (c.params.map Prod.fst).contains p.id then .error "duplicate parameter"
  else .ok { c with params := c.params ++ [(p.id, p)] }

/-- `ValidatorInfo` slice of `McStateExtra`. -/
structure ValidatorInfo where
  validator_list_hash_short : Nat := 0
  catchain_seqno : Nat := 0
  nx_cc_updated : Bool := false
deriving Repr, DecidableEq

/-- `CurrencyCollection`: grams plus extra currencies. -/
structure CurrencyCollection where
  grams : Grams := 0
  other : List (Nat × Nat) := []
deriving Repr, DecidableEq

/-- `CurrencyCollection::from_grams`. -/
def CurrencyCollection.from_grams (g : Grams) : CurrencyCollection := ⟨g, []⟩

/-- `McStateExtra`: the masterchain extra carried by the state parser. -/
structure McStateExtra where
  config : ConfigParams := {}
  validator_info : ValidatorInfo := {}
  global_balance : CurrencyCollection := {}
  after_key_block : Bool := false
deriving Repr, DecidableEq

/-- `LibDescr`: a library cell plus its publishers. -/
structure LibDescr where
  lib : List Nat
  publishers : List UInt256
deriving Repr, DecidableEq

/-- Modelled from the spec: an external `Account` decoded from a boc blob; it
may or may not expose an identifier (§4.5: accounts with no derivable
identifier are silently skipped).  We keep the raw bytes and derive the id
from the first byte when present. -/
structure Account where
  raw : List Nat
deriving Repr, DecidableEq

/-- Modelled from the spec: external `Account::construct_from_bytes`. -/
def Account.construct_from_bytes (bytes : List Nat) : Except String Account :=
  if bytes.isEmpty then .error "empty account boc" else .ok ⟨bytes⟩

/-- Modelled from the spec: external `Account::get_id`. -/
def Account.get_id (a : Account) : Option UInt256 := a.raw.head?

/-- Modelled from the spec: the external "decode single-root binary cell
object from bytes" collaborator (`read_single_root_boc`). -/
def read_single_root_boc (bytes : List Nat) : Except String (List Nat) :=
  if bytes.isEmpty then .error "empty boc" else .ok bytes

/-- `ShardStateUnsplit`: the shard-state object assembled by the parser. -/
structure ShardStateUnsplit where
  shard_ident : ShardIdent
  global_id : Int := 0
  gen_time : Nat := 0
  min_ref_mc_seqno : Nat := 0
  total_balance : CurrencyCollection := {}
  accounts : List (UInt256 × Account) := []
  libraries : List (UInt256 × LibDescr) := []
  custom : Option McStateExtra := none
deriving Repr, DecidableEq

/-- `ShardStateUnsplit::with_ident`. -/
def ShardStateUnsplit.with_ident (ident : ShardIdent) : ShardStateUnsplit :=
  { shard_ident := ident }

/-- Insert-or-replace into an association list (external keyed-collection
`set` operations). -/
def assocSet {α β : Type} [DecidableEq α] (l : List (α × β)) (k : α) (v : β) :
    List (α × β) :=
  if (l.map Prod.fst).contains k then
    l.map (fun kv => if kv.1 = k then (k, v) else kv)
  else l ++ [(k, v)]

/-- Add a key to a key set, keeping one copy (external `add_key`). -/
def addKey {α : Type} [DecidableEq α] (l : List α) (k : α) : List α :=
  if l.contains k then l else l ++ [k]

/-! ## The state parser -/

/-- `StateParser`: the accumulating parser state — shard state being built,
masterchain extra, and the 64-bit mandatory-parameter mask. -/
structure StateParser where
  state : ShardStateUnsplit
  extra : McStateExtra
  mandatory_params : Nat
deriving Repr, DecidableEq

namespace StateParser

/-- `StateParser::new`: everything optional (mask 0). -/
def new : StateParser :=
  ⟨ShardStateUnsplit.with_ident ShardIdent.masterchain, {}, 0⟩

/-- `StateParser::for_zero_state`: the hard-coded genesis mask literal
`0x0000_0004_B3F7_CF87`. -/
def for_zero_state : StateParser :=
  ⟨ShardStateUnsplit.with_ident ShardIdent.masterchain, {}, 0x00000004B3F7CF87⟩

/-- `StateParser::is_need`: `((mandatory_params >> num) & 1) != 0`. -/
def is_need (st : StateParser) (num : Nat) : Bool :=
  ((st.mandatory_params >>> num) &&& 1) != 0

/-- `self.extra.config.set_config(x)?` with the raw error propagated. -/
def set_config_raw (st : StateParser) (p : ConfigParamEnum) :
    Except String StateParser :=
  match st.extra.config.set_config p with
  | .ok c => .ok { st with extra := { st.extra with config := c } }
  | .error e => .error e

/-- `StateParser::parse_parameter`: the single-object adapter. -/
def parse_parameter (st : StateParser) (config : PathMap) (num : Nat)
    (f : PathMap → Except String ConfigParamEnum) : Except String StateParser :=
  let pname := "p" ++ toString num
  match config.get_obj pname with
  | .ok p =>
    match f p with
    | .ok cp =>
      match st.extra.config.set_config cp with
      | .ok c => .ok { st with extra := { st.extra with config := c } }
      | .error err =>
        .error ("Can't set config for " ++ p.pathStr ++ " : " ++ err)
    | .error e => .error e
  | .error err =>
    if st.is_need num then
      .error ("parameter p" ++ toString num ++ " not found: " ++ err)
    else .ok st

/-- `StateParser::parse_array`: the array adapter. -/
def parse_array (st : StateParser) (config : PathMap) (num : Nat)
    (f : List JVal → Except String ConfigParamEnum) : Except String StateParser :=
  let pname := "p" ++ toString num
  match config.get_vec pname with
  | .ok v =>
    match f v with
    | .ok cp =>
      match st.extra.config.set_config cp with
      | .ok c => .ok { st with extra := { st.extra with config := c } }
      | .error err =>
        .error ("Can't set config for " ++ config.pathStr ++ " : " ++ err)
    | .error e => .error e
  | .error err =>
    if st.is_need num then
      .error ("parameter p" ++ toString num ++ " not found: " ++ err)
    else .ok st

/-- `StateParser::parse_uint256`: the scalar-hash adapter. -/
def parse_uint256 (st : StateParser) (config : PathMap) (num : Nat)
    (f : UInt256 → Except String ConfigParamEnum) : Except String StateParser :=
  let pname := "p" ++ toString num
  match config.get_uint256 pname with
  | .ok p =>
    match f p with
    | .ok cp =>
      match st.extra.config.set_config cp with
      | .ok c => .ok { st with extra := { st.extra with config := c } }
      | .error err =>
        .error ("Can't set config for " ++ config.pathStr ++ " : " ++ err)
    | .error e => .error e
  | .error err =>
    if st.is_need num then
      .error ("parameter p" ++ toString num ++ " not found: " ++ err)
    else .ok st

/-- `StateParser::parse_param_set_params` (shared by p9/p10). -/
def parse_param_set_params (st : StateParser) (config : PathMap) (num : Nat) :
    Except String (Option (List Nat)) :=
  let pname := "p" ++ toString num
  match config.get_vec pname with
  | .ok vec =>
    (vec.foldlM (fun (params : List Nat) (n : JVal) => do
        let k ← n.as_uint
        pure (addKey params k)) ([] : List Nat)).map some
  | .error err => if st.is_need num then .error err else .ok none

/-- `StateParser::parse_param_limits`. -/
def parse_param_limits (param : PathMap) : Except String ParamLimits := do
  let underload ← param.get_num "underload"
  let soft ← param.get_num "soft_limit"
  let hard ← param.get_num "hard_limit"
  -- External `ParamLimits::with_limits`; its internal validation is out of
  -- scope, modelled as total assembly.
  pure ⟨u32_cast underload, u32_cast soft, u32_cast hard⟩

/-- `StateParser::parse_block_limits_struct`. -/
def parse_block_limits_struct (param : PathMap) : Except String BlockLimits := do
  let bytes ← parse_param_limits (← param.get_obj "bytes")
  let gas ← parse_param_limits (← param.get_obj "gas")
  let lt_delta ← parse_param_limits (← param.get_obj "lt_delta")
  pure ⟨bytes, gas, lt_delta⟩

/-- `StateParser::parse_block_limits` (p22/p23). -/
def parse_block_limits (st : StateParser) (config : PathMap) :
    Except String StateParser := do
  let st ← st.parse_parameter config 22
    (fun p => (parse_block_limits_struct p).map .param22)
  st.parse_parameter config 23
    (fun p => (parse_block_limits_struct p).map .param23)

/-- `StateParser::parse_msg_forward_prices_struct`. -/
def parse_msg_forward_prices_struct (param : PathMap) :
    Except String MsgForwardPrices := do
  let lump_price ← param.get_num "lump_price"
  let bit_price ← param.get_num "bit_price"
  let cell_price ← param.get_num "cell_price"
  let ihr_price_factor ← param.get_num "ihr_price_factor"
  let first_frac ← param.get_num "first_frac"
  let next_frac ← param.get_num "next_frac"
  pure ⟨u64_cast lump_price, u64_cast bit_price, u64_cast cell_price,
    u32_cast ihr_price_factor, u16_cast first_frac, u16_cast next_frac⟩

/-- `StateParser::parse_msg_forward_prices` (p24/p25). -/
def parse_msg_forward_prices (st : StateParser) (config : PathMap) :
    Except String StateParser := do
  let st ← st.parse_parameter config 24
    (fun p => (parse_msg_forward_prices_struct p).map .param24)
  st.parse_parameter config 25
    (fun p => (parse_msg_forward_prices_struct p).map .param25)

/-- `StateParser::parse_gas_limits_struct`. -/
def parse_gas_limits_struct (param : PathMap) : Except String GasLimitsPrices := do
  let gas_price ← param.get_num "gas_price"
  let gas_limit ← param.get_num "gas_limit"
  let special_gas_limit ← param.get_num "special_gas_limit"
  let gas_credit ← param.get_num "gas_credit"
  let block_gas_limit ← param.get_num "block_gas_limit"
  let freeze_due_limit ← param.get_num "freeze_due_limit"
  let delete_due_limit ← param.get_num "delete_due_limit"
  let flat_gas_limit ← param.get_num "flat_gas_limit"
  let flat_gas_price ← param.get_num "flat_gas_price"
  pure ⟨u64_cast gas_price, u64_cast gas_limit, u64_cast special_gas_limit,
    u64_cast gas_credit, u64_cast block_gas_limit, u64_cast freeze_due_limit,
    u64_cast delete_due_limit, u64_cast flat_gas_limit, u64_cast flat_gas_price, 0⟩

/-- `StateParser::parse_gas_limits` (p20/p21). -/
def parse_gas_limits (st : StateParser) (config : PathMap) :
    Except String StateParser := do
  let st ← st.parse_parameter config 20
    (fun p => (parse_gas_limits_struct p).map .param20)
  st.parse_parameter config 21
    (fun p => (parse_gas_limits_struct p).map .param21)

/-- `StateParser::parse_storage_prices` (p18). -/
def parse_storage_prices (st : StateParser) (config : PathMap) :
    Except String StateParser :=
  st.parse_array config 18 (fun p18 => do
    let res ← p18.foldlM (fun acc value => do
        let p ← PathMap.cont config "p18" value
        let utime_since ← p.get_num "utime_since"
        let bit_price_ps ← p.get_num "bit_price_ps"
        let cell_price_ps ← p.get_num "cell_price_ps"
        let mc_bit_price_ps ← p.get_num "mc_bit_price_ps"
        let mc_cell_price_ps ← p.get_num "mc_cell_price_ps"
        let sp : StoragePrices := ⟨u32_cast utime_since, u64_cast bit_price_ps,
          u64_cast cell_price_ps, u64_cast mc_bit_price_ps,
          u64_cast mc_cell_price_ps⟩
        pure (assocSet acc.1 acc.2 sp, acc.2 + 1))
      (([] : List (Nat × StoragePrices)), (0 : Nat))
    pure (.param18 res.1))

/-- `parse_separated_block_id_ext`. -/
def parse_separated_block_id_ext_fn (map_path : PathMap) :
    Except String BlockIdExt := do
  let wc ← map_path.get_num "wc"
  let shard_s ← map_path.get_str "shard"
  let pfx ← match u64_from_hex_str shard_s with
    | some v => Except.ok v
    | none => Except.error "invalid shard prefix hex"
  let shard ← ShardIdent.withTaggedPfx (i32_cast wc) pfx
  let seqno ← map_path.get_num "seqno"
  let root_hash ← map_path.get_uint256 "root_hash"
  let file_hash ← map_path.get_uint256 "file_hash"
  pure ⟨shard, u32_cast seqno, root_hash, file_hash⟩

/-- `StateParser::parse_mesh_config` (p58). -/
def parse_mesh_config (st : StateParser) (config : PathMap) :
    Except String StateParser :=
  st.parse_array config 58 (fun p58 => do
    let map ← p58.foldlM (fun acc value => do
        let p ← PathMap.cont config "p58" value
        let nw_id ← p.get_num "network_id"
        let hardforks ← match p.get_vec "hardforks" with
          | .ok vector =>
            vector.foldlM (fun hfs hf => do
                let p ← PathMap.cont p "hardforks" hf
                let b ← parse_separated_block_id_ext_fn p
                pure (hfs ++ [b])) ([] : List BlockIdExt)
          | .error _ => pure []
        let zerostate ← parse_separated_block_id_ext_fn (← p.get_obj "zerostate")
        let is_active ← p.get_bool "is_active"
        let currency_id ← p.get_num "currency_id"
        let init_block ← parse_separated_block_id_ext_fn (← p.get_obj "init_block")
        let emergency_guard_addr ← p.get_uint256 "emergency_guard_addr"
        let pull_addr ← p.get_uint256 "pull_addr"
        let minter_addr ← p.get_uint256 "minter_addr"
        let nw_cfg : ConnectedNwConfig := ⟨zerostate, is_active,
          u32_cast currency_id, init_block, emergency_guard_addr, pull_addr,
          minter_addr, hardforks⟩
        pure (assocSet acc (i32_cast nw_id) nw_cfg))
      ([] : List (Int × ConnectedNwConfig))
    pure (.param58 map))

/-- `StateParser::parse_param_set` (p9/p10): set each parameter-id set when
its optional list was found. -/
def parse_param_set (st : StateParser) (config : PathMap) :
    Except String StateParser :=
  match st.parse_param_set_params config 9 with
  | .error e => .error e
  | .ok r9 =>
    match (match r9 with
           | some mandatory_params => st.set_config_raw (.param9 mandatory_params)
           | none => .ok st) with
    | .error e => .error e
    | .ok st =>
      match st.parse_param_set_params config 10 with
      | .error e => .error e
      | .ok r10 =>
        match r10 with
        | some critical_params => st.set_config_raw (.param10 critical_params)
        | none => .ok st

/-- `StateParser::parse_critical_params`. -/
def parse_critical_params (params : PathMap) :
    Except String ConfigProposalSetup := do
  let min_tot_rounds ← params.get_num "min_tot_rounds"
  let max_tot_rounds ← params.get_num "max_tot_rounds"
  let min_wins ← params.get_num "min_wins"
  let max_losses ← params.get_num "max_losses"
  let min_store_sec ← params.get_num "min_store_sec"
  let max_store_sec ← params.get_num "max_store_sec"
  let bit_price ← params.get_num "bit_price"
  let cell_price ← params.get_num "cell_price"
  pure ⟨u8_cast min_tot_rounds, u8_cast max_tot_rounds, u8_cast min_wins,
    u8_cast max_losses, u32_cast min_store_sec, u32_cast max_store_sec,
    u32_cast bit_price, u32_cast cell_price⟩

/-- `StateParser::parse_p11`.  The external `ConfigParam11::new` constructor
(which may reject inconsistent setups downstream) is modelled as assembly. -/
def parse_p11 (st : StateParser) (config : PathMap) :
    Except String StateParser :=
  st.parse_parameter config 11 (fun p11 => do
    let normal_params ← parse_critical_params (← p11.get_obj "normal_params")
    let critical_params ← parse_critical_params (← p11.get_obj "critical_params")
    pure (.param11 normal_params critical_params))

/-- `StateParser::parse_p12`. -/
def parse_p12 (st : StateParser) (config : PathMap) :
    Except String StateParser :=
  st.parse_array config 12 (fun p12 => do
    let workchains ← p12.foldlM (fun acc wc_info => do
        let wc_info ← PathMap.cont config "p12" wc_info
        let workchain_id ← wc_info.get_num "workchain_id"
        let enabled_since ← wc_info.get_num "enabled_since"
        let min_split ← wc_info.get_num "min_split"
        let max_split ← wc_info.get_num "max_split"
        let flags ← wc_info.get_num "flags"
        let active ← wc_info.get_bool "active"
        let accept_msgs ← wc_info.get_bool "accept_msgs"
        let zerostate_root_hash ← wc_info.get_uint256 "zerostate_root_hash"
        let zerostate_file_hash ← wc_info.get_uint256 "zerostate_file_hash"
        let version ← wc_info.get_num "version"
        let format ← match ← wc_info.get_bool "basic" with
          | true => do
            let vm_version ← wc_info.get_num "vm_version"
            let vm_mode ← wc_info.get_num "vm_mode"
            pure (WorkchainFormat.basic (i32_cast vm_version) (u64_cast vm_mode))
          | false => do
            let min_addr_len ← wc_info.get_num "min_addr_len"
            let max_addr_len ← wc_info.get_num "max_addr_len"
            let addr_len_step ← wc_info.get_num "addr_len_step"
            let workchain_type_id ← wc_info.get_num "workchain_type_id"
            pure (WorkchainFormat.extended (u16_cast min_addr_len)
              (u16_cast max_addr_len) (u16_cast addr_len_step)
              (u32_cast workchain_type_id))
        let descr : WorkchainDescr :=
          { enabled_since := u32_cast enabled_since,
            min_split := u8_cast min_split, max_split := u8_cast max_split,
            flags := u16_cast flags, active := active,
            accept_msgs := accept_msgs,
            zerostate_root_hash := zerostate_root_hash,
            zerostate_file_hash := zerostate_file_hash,
            version := u32_cast version, format := format }
        pure (assocSet acc (u32_cast workchain_id) descr))
      ([] : List (Nat × WorkchainDescr))
    pure (.param12 workchains))

/-- `StateParser::parse_catchain_config` (p28). -/
def parse_catchain_config (p28 : PathMap) : Except String ConfigParamEnum := do
  let shuffle ← p28.get_bool "shuffle_mc_validators"
  let isolate := match p28.get_bool "isolate_mc_validators" with
    | .ok b => b
    | .error _ => false
  let mc_catchain_lifetime ← p28.get_num "mc_catchain_lifetime"
  let shard_catchain_lifetime ← p28.get_num "shard_catchain_lifetime"
  let shard_validators_lifetime ← p28.get_num "shard_validators_lifetime"
  let shard_validators_num ← p28.get_num "shard_validators_num"
  pure (.param28 ⟨shuffle, isolate, u32_cast mc_catchain_lifetime,
    u32_cast shard_catchain_lifetime, u32_cast shard_validators_lifetime,
    u32_cast shard_validators_num⟩)

/-- `StateParser::parse_consensus_config` (p29). -/
def parse_consensus_config (p29 : PathMap) : Except String ConfigParamEnum := do
  let new_catchain_ids ← p29.get_bool "new_catchain_ids"
  let round_candidates ← p29.get_num "round_candidates"
  let next_candidate_delay_ms ← p29.get_num "next_candidate_delay_ms"
  let consensus_timeout_ms ← p29.get_num "consensus_timeout_ms"
  let fast_attempts ← p29.get_num "fast_attempts"
  let attempt_duration ← p29.get_num "attempt_duration"
  let catchain_max_deps ← p29.get_num "catchain_max_deps"
  let max_block_bytes ← p29.get_num "max_block_bytes"
  let max_collated_bytes ← p29.get_num "max_collated_bytes"
  pure (.param29 ⟨new_catchain_ids, u32_cast round_candidates,
    u32_cast next_candidate_delay_ms, u32_cast consensus_timeout_ms,
    u32_cast fast_attempts, u32_cast attempt_duration,
    u32_cast catchain_max_deps, u32_cast max_block_bytes,
    u32_cast max_collated_bytes⟩)

/-- `StateParser::parse_delector_params` (p30). -/
def parse_delector_params (p30 : PathMap) : Except String ConfigParamEnum := do
  let delections_step ← p30.get_num "delections_step"
  let validator_init_code_hash ← p30.get_uint256 "validator_init_code_hash"
  let staker_init_code_hash ← p30.get_uint256 "staker_init_code_hash"
  pure (.param30 ⟨u32_cast delections_step, validator_init_code_hash,
    staker_init_code_hash⟩)

/-- `StateParser::parse_smft_params` (p62). -/
def parse_smft_params (p62 : PathMap) : Except String ConfigParamEnum := do
  let a1 ← p62.get_num "min_forwarding_neighbours_count"
  let a2 ← p62.get_num "max_forwarding_neighbours_count"
  let a3 ← p62.get_num "min_far_neighbours_count"
  let a4 ← p62.get_num "max_far_neighbours_count"
  let a5 ← p62.get_num "min_block_sync_period_ms"
  let a6 ← p62.get_num "max_block_sync_period_ms"
  let a7 ← p62.get_num "min_far_neighbours_sync_period_ms"
  let a8 ← p62.get_num "max_far_neighbours_sync_period_ms"
  let a9 ← p62.get_num "far_neighbours_resync_period_ms"
  let a10 ← p62.get_num "block_sync_lifetime_period_ms"
  let a11 ← p62.get_num "block_lifetime_period_ms"
  let a12 ← p62.get_num "verification_obligation_cutoff_numerator"
  let a13 ← p62.get_num "verification_obligation_cutoff_denominator"
  let a14 ← p62.get_num "delivery_cutoff_numerator"
  let a15 ← p62.get_num "delivery_cutoff_denominator"
  let a16 ← p62.get_num "manual_candidate_loading_delay_ms"
  let a17 ← p62.get_num "mc_allowed_force_delivery_delay_ms"
  let a18 ← p62.get_num "mc_force_delivery_duplication_factor_numerator"
  let a19 ← p62.get_num "mc_force_delivery_duplication_factor_denominator"
  let a20 ← p62.get_num "mc_max_delivery_waiting_timeout_ms"
  let use_debug_bls_keys ← p62.get_bool "use_debug_bls_keys"
  pure (.param62 ⟨u32_cast a1, u32_cast a2, u32_cast a3, u32_cast a4,
    u32_cast a5, u32_cast a6, u32_cast a7, u32_cast a8, u32_cast a9,
    u32_cast a10, u32_cast a11, u32_cast a12, u32_cast a13, u32_cast a14,
    u32_cast a15, u32_cast a16, u32_cast a17, u32_cast a18, u32_cast a19,
    u32_cast a20, use_debug_bls_keys⟩)

/-- Length in bytes of the fixed alternate (BLS) public key.  Modelled from
the spec (§4.4): "an alternate 96-byte public key (fixed length enforced; any
other length is a hard decode error)". -/
def BLS_KEY_BYTES : Nat := 96

/-- Modelled from the spec: the external fixed-length conversion applied to a
decoded BLS key (`try_into`). -/
def bls_key_of_bytes (bytes : List Nat) : Except String (List Nat) :=
  if bytes.length = BLS_KEY_BYTES then .ok bytes
  else .error "invalid BLS key length"

/-- Modelled from the spec: the external hex `FromStr` of a 32-byte public
key (used by p34's `public_key.parse()`). -/
def SigPubKey.from_str (s : String) : Except String (List Nat) :=
  match hex_decode s with
  | some b => SigPubKey.from_bytes b
  | none => .error "invalid public key hex"

/-- `StateParser::parse_validator_set` (shared by p32/p33/p35/p36/p37). -/
def parse_validator_set (config : PathMap) : Except String ValidatorSet := do
  let utime_since ← config.get_num "utime_since"
  let utime_until ← config.get_num "utime_until"
  let main ← config.get_num "main"
  let vs ← config.get_vec "list"
  let list ← vs.foldlM (fun (acc : List ValidatorDescr) (pv : JVal) => do
      let p ← PathMap.cont config "p" pv
      let pk_s ← p.get_str "public_key"
      let public_key ← match hex_decode pk_s with
        | some b => Except.ok b
        | none => Except.error "invalid public key hex"
      let weight ← p.get_num "weight"
      let adnl_addr := match p.get_uint256 "adnl_addr" with
        | .ok a => some a
        | .error _ => none
      let bls_public_key ← match p.get_str "bls_public_key" with
        | .ok s =>
          match hex_decode s with
          | some b => (bls_key_of_bytes b).map some
          | none => Except.error "invalid BLS key hex"
        | .error _ => Except.ok none
      let pk ← SigPubKey.from_bytes public_key
      pure (acc ++ [⟨pk, u64_cast weight, adnl_addr, bls_public_key⟩]))
    []
  ValidatorSet.new (u32_cast utime_since) (u32_cast utime_until)
    (u16_cast main) list

/-- The p34 parameter body (current validator set, with the explicit 96
hex-character BLS length guard). -/
def parse_p34_body (config : PathMap) (p34 : PathMap) :
    Except String ConfigParamEnum := do
  let vs ← p34.get_vec "list"
  let list ← vs.foldlM (fun (acc : List ValidatorDescr) (pv : JVal) => do
      let p ← PathMap.cont config "p34" pv
      let bls_public_key ← match p.get_str "bls_public_key" with
        | .ok s =>
          if s.length ≠ 96 then
            Except.error ("Invalid BLS public key length " ++ toString s.length)
          else
            match hex_decode s with
            | some b => (bls_key_of_bytes b).map some
            | none => Except.error "invalid BLS key hex"
        | .error _ => Except.ok none
      let pk ← SigPubKey.from_str (← p.get_str "public_key")
      let weight ← p.get_num "weight"
      pure (acc ++ [⟨pk, u64_cast weight, none, bls_public_key⟩]))
    []
  let utime_since ← p34.get_num "utime_since"
  let utime_until ← p34.get_num "utime_until"
  let main ← p34.get_num "main"
  let cur_validators ← ValidatorSet.new (u32_cast utime_since)
    (u32_cast utime_until) (u16_cast main) list
  pure (.param34 cur_validators)

/-- The p39 parameter body (signed temporary validator keys). -/
def parse_p39_body (config : PathMap) (p39 : List JVal) :
    Except String ConfigParamEnum := do
  let validator_keys ← p39.foldlM
    (fun (acc : List (UInt256 × ValidatorSignedTempKey)) (pv : JVal) => do
      let p ← PathMap.cont config "p39" pv
      let key ← p.get_uint256 "map_key"
      let adnl_addr ← p.get_uint256 "adnl_addr"
      let tk_s ← p.get_str "temp_public_key"
      let temp_public_key ← match hex_decode tk_s with
        | some b => Except.ok b
        | none => Except.error "invalid temp key hex"
      let seqno ← p.get_num "seqno"
      let valid_until ← p.get_num "valid_until"
      let signature_r ← p.get_str "signature_r"
      let signature_s ← p.get_str "signature_s"
      let pk ← SigPubKey.from_bytes temp_public_key
      let sk ← CryptoSignature.from_r_s_str signature_r signature_s
      let tk : ValidatorTempKey := ⟨adnl_addr, pk, u32_cast seqno,
        u32_cast valid_until⟩
      pure (assocSet acc key ⟨tk, sk⟩))
    []
  pure (.param39 validator_keys)

/-- The p40 slashing record built best-effort from the optional `p40` object
(every sub-field keeps the `SlashingConfig` default when missing/invalid). -/
def parse_p40_slashing (config : PathMap) : SlashingConfig :=
  let d : SlashingConfig := {}
  match config.get_obj "p40" with
  | .ok p40 =>
    { slashing_period_mc_blocks_count :=
        p40.get_u32 "slashing_period_mc_blocks_count" d.slashing_period_mc_blocks_count,
      resend_mc_blocks_count :=
        p40.get_u32 "resend_mc_blocks_count" d.resend_mc_blocks_count,
      min_samples_count := p40.get_u32 "min_samples_count" d.min_samples_count,
      collations_score_weight :=
        p40.get_u32 "collations_score_weight" d.collations_score_weight,
      signing_score_weight :=
        p40.get_u32 "signing_score_weight" d.signing_score_weight,
      min_slashing_protection_score :=
        p40.get_u32 "min_slashing_protection_score" d.min_slashing_protection_score,
      z_param_numerator := p40.get_u32 "z_param_numerator" d.z_param_numerator,
      z_param_denominator :=
        p40.get_u32 "z_param_denominator" d.z_param_denominator }
  | .error _ => d

/-- The p40 step of `parse_config`: builds the slashing record (best-effort)
and then sets `ConfigParam40` unconditionally. -/
def p40_step (st : StateParser) (config : PathMap) : Except String StateParser :=
  st.set_config_raw (.param40 (parse_p40_slashing config))

/-- The p42 parameter body (copyleft config), as passed to
`parse_parameter`. -/
def parse_p42_body (config : PathMap) (p42 : PathMap) :
    Except String ConfigParamEnum := do
  let threshold ← p42.get_grams "threshold"
  let payouts ← p42.get_vec "payouts"
  let rates ← payouts.foldlM (fun (acc : List (Nat × Nat)) (pv : JVal) => do
      let p ← PathMap.cont config "p42" pv
      let license_type := p.get_u32 "license_type" 0
      let percent := p.get_u32 "payout_percent" 0
      pure (assocSet acc (license_type % 2 ^ 8) (percent % 2 ^ 8)))
    []
  pure (.param42 ⟨threshold, rates⟩)

/-- The p42 step of `parse_config`: the standard single-object adapter
applied to the copyleft body. -/
def p42_step (st : StateParser) (config : PathMap) : Except String StateParser :=
  st.parse_parameter config 42 (parse_p42_body config)

/-- The p44 array body (suspended addresses). -/
def parse_p44_body (p44 : List JVal) : Except String ConfigParamEnum := do
  let suspended ← p44.foldlM (fun (acc : List (Int × UInt256)) (address : JVal) => do
      let s ← match address.as_str with
        | some s => Except.ok s
        | none => Except.error "address must be string"
      -- Modelled from the spec: external `MsgAddressInt` string parse
      -- (`workchain:64-hex-digit-address`).
      let parts := s.splitOn ":"
      match parts with
      | [wcs, addr] =>
        match parseSigned decDigit? 10 wcs,
            (if addr.length = 64 then parseNatDigits hexDigit? 16 addr.data
             else none) with
        | some wc, some a => pure (addKey acc (wc, a))
        | _, _ => Except.error "invalid address"
      | _ => Except.error "invalid address")
    []
  pure (.param44 suspended)

/-- The fast-finality record built best-effort from a present `p61` object. -/
def parse_p61_ff (p61 : PathMap) : FastFinalityConfig :=
  let d : FastFinalityConfig := {}
  { split_merge_interval := p61.get_u32 "split_merge_interval" d.split_merge_interval,
    collator_range_len := p61.get_u32 "collator_range_len" d.collator_range_len,
    lost_collator_timeout := p61.get_u32 "lost_collator_timeout" d.lost_collator_timeout,
    mempool_validators_count :=
      p61.get_u32 "mempool_validators_count" d.mempool_validators_count,
    mempool_rotated_count :=
      p61.get_u32 "mempool_rotated_count" d.mempool_rotated_count,
    unreliability_fine := p61.get_u16 "unreliability_fine" d.unreliability_fine,
    unreliability_weak_fading :=
      p61.get_u16 "unreliability_weak_fading" d.unreliability_weak_fading,
    unreliability_strong_fading :=
      p61.get_u16 "unreliability_strong_fading" d.unreliability_strong_fading,
    unreliability_max := p61.get_u16 "unreliability_max" d.unreliability_max,
    unreliability_weight := p61.get_u16 "unreliability_weight" d.unreliability_weight,
    familiarity_collator_fine :=
      p61.get_u16 "familiarity_collator_fine" d.familiarity_collator_fine,
    familiarity_msgpool_fine :=
      p61.get_u16 "familiarity_msgpool_fine" d.familiarity_msgpool_fine,
    familiarity_fading := p61.get_u16 "familiarity_fading" d.familiarity_fading,
    familiarity_max := p61.get_u16 "familiarity_max" d.familiarity_max,
    familiarity_weight := p61.get_u16 "familiarity_weight" d.familiarity_weight,
    busyness_collator_fine :=
      p61.get_u16 "busyness_collator_fine" d.busyness_collator_fine,
    busyness_msgpool_fine :=
      p61.get_u16 "busyness_msgpool_fine" d.busyness_msgpool_fine,
    busyness_weight := p61.get_u16 "busyness_weight" d.busyness_weight,
    candidates_percentile :=
      p61.get_u8 "candidates_percentile" d.candidates_percentile }

/-- The p61 step of `parse_config`: only when `p61` is present as an object,
build the record best-effort and set `ConfigParam61`; otherwise skip. -/
def p61_step (st : StateParser) (config : PathMap) : Except String StateParser :=
  match config.get_obj "p61" with
  | .ok p61 => st.set_config_raw (.param61 (parse_p61_ff p61))
  | .error _ => .ok st

end StateParser

namespace StateParser

/-- `StateParser::parse_config`: the parameter-by-parameter config decoder,
in source order. -/
def parse_config (st : StateParser) (config : PathMap) :
    Except String StateParser := do
  let st ← st.parse_uint256 config 0 (fun a => .ok (.param0 a))
  let st ← st.parse_uint256 config 1 (fun a => .ok (.param1 a))
  let st ← st.parse_uint256 config 2 (fun a => .ok (.param2 a))
  let st ← st.parse_uint256 config 3 (fun a => .ok (.param3 a))
  let st ← st.parse_uint256 config 4 (fun a => .ok (.param4 a))
  let st ← st.parse_uint256 config 5 (fun a => .ok (.param5 a))
  let st ← st.parse_parameter config 6 (fun value => do
    let mint_new_price ← value.get_grams "mint_new_price"
    let mint_add_price ← value.get_grams "mint_add_price"
    pure (.param6 mint_new_price mint_add_price))
  let st ← st.parse_array config 7 (fun p7 => do
    let to_mint ← p7.foldlM (fun (acc : List (Nat × Nat)) (cv : JVal) => do
        let currency ← PathMap.cont config "p7" cv
        let value ← match currency.get_str "value_dec" with
          | .ok s =>
            match parseNatDigits decDigit? 10 s.data with
            | some v => Except.ok v
            | none => Except.error "invalid currency value"
          | .error _ => do
            let s ← currency.get_str "value"
            match parseNatDigits decDigit? 10 s.data with
            | some v => Except.ok v
            | none => Except.error "invalid currency value"
        let cid ← currency.get_num "currency"
        pure (assocSet acc (u32_cast cid) value))
      []
    pure (.param7 to_mint))
  let st ← st.parse_parameter config 8 (fun p8 => do
    let version ← p8.get_num "version"
    let capabilities ← p8.get_num "capabilities"
    pure (.param8 (u32_cast version) (u64_cast capabilities)))
  let st ← st.parse_param_set config
  let st ← st.parse_p11 config
  let st ← st.parse_p12 config
  let st ← st.parse_parameter config 13 (fun p13 => do
    let cell ← read_single_root_boc (← p13.get_base64 "boc")
    pure (.param13 cell))
  let st ← st.parse_parameter config 14 (fun p14 => do
    let masterchain_block_fee ← p14.get_grams "masterchain_block_fee"
    let basechain_block_fee ← p14.get_grams "basechain_block_fee"
    pure (.param14 masterchain_block_fee basechain_block_fee))
  let st ← st.parse_parameter config 15 (fun p15 => do
    let validators_elected_for ← p15.get_num "validators_elected_for"
    let elections_start_before ← p15.get_num "elections_start_before"
    let elections_end_before ← p15.get_num "elections_end_before"
    let stake_held_for ← p15.get_num "stake_held_for"
    pure (.param15 (u32_cast validators_elected_for)
      (u32_cast elections_start_before) (u32_cast elections_end_before)
      (u32_cast stake_held_for)))
  let st ← st.parse_parameter config 16 (fun p16 => do
    let min_validators ← p16.get_num16 "min_validators"
    let max_validators ← p16.get_num16 "max_validators"
    let max_main_validators ← p16.get_num16 "max_main_validators"
    pure (.param16 min_validators max_validators max_main_validators))
  let st ← st.parse_parameter config 17 (fun p17 => do
    let min_stake ← p17.get_grams "min_stake"
    let max_stake ← p17.get_grams "max_stake"
    let min_total_stake ← p17.get_grams "min_total_stake"
    let max_stake_factor ← p17.get_num "max_stake_factor"
    pure (.param17 min_stake max_stake min_total_stake
      (u32_cast max_stake_factor)))
  let st ← st.parse_storage_prices config
  let st ← st.parse_gas_limits config
  let st ← st.parse_block_limits config
  let st ← st.parse_msg_forward_prices config
  let st ← st.parse_parameter config 28 parse_catchain_config
  let st ← st.parse_parameter config 29 parse_consensus_config
  let st ← st.parse_parameter config 30 parse_delector_params
  let st ← st.parse_array config 31 (fun p31 => do
    let fundamental_smc_addr ← p31.foldlM
      (fun (acc : List UInt256) (n : JVal) => do
        let a ← n.as_uint256
        pure (addKey acc a))
      []
    pure (.param31 fundamental_smc_addr))
  let st ← st.parse_parameter config 32
    (fun p => (parse_validator_set p).map (fun v => .param32 v))
  let st ← st.parse_parameter config 33
    (fun p => (parse_validator_set p).map (fun v => .param33 v))
  let st ← st.parse_parameter config 34 (parse_p34_body config)
  let st ← st.parse_parameter config 35
    (fun p => (parse_validator_set p).map (fun v => .param35 v))
  let st ← st.parse_parameter config 36
    (fun p => (parse_validator_set p).map (fun v => .param36 v))
  let st ← st.parse_parameter config 37
    (fun p => (parse_validator_set p).map (fun v => .param37 v))
  let st ← st.parse_array config 39 (parse_p39_body config)
  let st ← st.p40_step config
  let st ← st.p42_step config
  let st ← st.parse_array config 44 parse_p44_body
  let st ← st.parse_mesh_config config
  let st ← st.p61_step config
  let st ← st.parse_parameter config 62 parse_smft_params
  pure st

/-! ### The state assembler (`parse_state_unchecked`), stage by stage -/

/-- The `global_id` stage: set on success; on failure, fatal iff the
mandatory mask is nonzero. -/
def stepGlobalId (st : StateParser) (mp : PathMap) : Except String StateParser :=
  match mp.get_num "global_id" with
  | .ok global_id =>
    .ok { st with state := { st.state with global_id := i32_cast global_id } }
  | .error err => if st.mandatory_params ≠ 0 then .error err else .ok st

/-- The `gen_utime` stage. -/
def stepGenUtime (st : StateParser) (mp : PathMap) : Except String StateParser :=
  match mp.get_num "gen_utime" with
  | .ok gen_utime =>
    .ok { st with state := { st.state with gen_time := u32_cast gen_utime } }
  | .error err => if st.mandatory_params ≠ 0 then .error err else .ok st

/-- The `total_balance` stage. -/
def stepTotalBalance (st : StateParser) (mp : PathMap) :
    Except String StateParser :=
  match mp.get_grams "total_balance" with
  | .ok balance =>
    .ok { st with state :=
      { st.state with total_balance := CurrencyCollection.from_grams balance } }
  | .error err => if st.mandatory_params ≠ 0 then .error err else .ok st

/-- The `config_addr` master field: mandatory-or-tolerant update. -/
def masterConfigAddr (st : StateParser) (master : PathMap) :
    Except String StateParser :=
  match master.get_uint256 "config_addr" with
  | .ok addr => .ok { st with extra :=
      { st.extra with config := { st.extra.config with config_addr := addr } } }
  | .error err => if st.mandatory_params ≠ 0 then .error err else .ok st

/-- The `validator_list_hash_short` master field. -/
def masterVlhs (st : StateParser) (master : PathMap) :
    Except String StateParser :=
  match master.get_num "validator_list_hash_short" with
  | .ok v => .ok { st with extra := { st.extra with validator_info :=
      { st.extra.validator_info with validator_list_hash_short := u32_cast v } } }
  | .error err => if st.mandatory_params ≠ 0 then .error err else .ok st

/-- The `catchain_seqno` master field. -/
def masterCatchainSeqno (st : StateParser) (master : PathMap) :
    Except String StateParser :=
  match master.get_num "catchain_seqno" with
  | .ok v => .ok { st with extra := { st.extra with validator_info :=
      { st.extra.validator_info with catchain_seqno := u32_cast v } } }
  | .error err => if st.mandatory_params ≠ 0 then .error err else .ok st

/-- The `nx_cc_updated` master field. -/
def masterNxCc (st : StateParser) (master : PathMap) :
    Except String StateParser :=
  match master.get_bool "nx_cc_updated" with
  | .ok v => .ok { st with extra := { st.extra with validator_info :=
      { st.extra.validator_info with nx_cc_updated := v } } }
  | .error err => if st.mandatory_params ≠ 0 then .error err else .ok st

/-- The `global_balance` master field. -/
def masterGlobalBalance (st : StateParser) (master : PathMap) :
    Except String StateParser :=
  match master.get_grams "global_balance" with
  | .ok balance => .ok { st with extra := { st.extra with global_balance :=
      { st.extra.global_balance with grams := balance } } }
  | .error err => if st.mandatory_params ≠ 0 then .error err else .ok st

/-- The `master` stage: decode the embedded config, then the per-field
mandatory-or-tolerant master fields, mark the key block and write the extra
into the state (`write_custom`). -/
def stepMaster (st : StateParser) (mp : PathMap) : Except String StateParser :=
  match mp.get_obj "master" with
  | .ok master => do
    let config ← master.get_obj "config"
    let st ← st.parse_config config
    let st ← st.masterConfigAddr master
    let st ← st.masterVlhs master
    let st ← st.masterCatchainSeqno master
    let st ← st.masterNxCc master
    let st ← st.masterGlobalBalance master
    pure { st with
      extra := { st.extra with after_key_block := true },
      state := { st.state with
        custom := some { st.extra with after_key_block := true } } }
  | .error err => if st.mandatory_params ≠ 0 then .error err else .ok st

/-- The `accounts` stage: best-effort decode, skipping accounts with no
derivable identifier. -/
def stepAccounts (st : StateParser) (mp : PathMap) : Except String StateParser :=
  match mp.get_vec "accounts" with
  | .ok accounts => do
    let sa ← accounts.foldlM
      (fun (sa : List (UInt256 × Account)) (av : JVal) => do
        let apm ← PathMap.cont mp "accounts" av
        let bytes ← apm.get_base64 "boc"
        let account ← Account.construct_from_bytes bytes
        match account.get_id with
        | some account_id => pure (assocSet sa account_id account)
        | none => pure sa)
      st.state.accounts
    pure { st with state := { st.state with accounts := sa } }
  | .error _ => .ok st

/-- The `libraries` stage. -/
def stepLibraries (st : StateParser) (mp : PathMap) : Except String StateParser :=
  match mp.get_vec "libraries" with
  | .ok libraries => do
    let libs ← libraries.foldlM
      (fun (libs : List (UInt256 × LibDescr)) (lv : JVal) => do
        let lpm ← PathMap.cont mp "libraries" lv
        let id ← lpm.get_uint256 "hash"
        let libBytes ← lpm.get_base64 "lib"
        let lib ← read_single_root_boc libBytes
        let publishers ← lpm.get_vec "publishers"
        let pubs ← publishers.foldlM (fun (ps : List UInt256) (pv : JVal) => do
            let u ← pv.as_uint256
            pure (addKey ps u))
          []
        pure (assocSet libs id ⟨lib, pubs⟩))
      st.state.libraries
    pure { st with state := { st.state with libraries := libs } }
  | .error _ => .ok st

/-- `StateParser::parse_state_unchecked`: the state assembler — set
`min_ref_mc_seqno` to `u32::MAX`, then run the six stages over the root
path context. -/
def parse_state_unchecked (p : StateParser) (map : JMap) :
    Except String ShardStateUnsplit := do
  let p ← StateParser.stepGlobalId
    { p with state := { p.state with min_ref_mc_seqno := 0xFFFFFFFF } }
    (PathMap.new map)
  let p ← p.stepGenUtime (PathMap.new map)
  let p ← p.stepTotalBalance (PathMap.new map)
  let p ← p.stepMaster (PathMap.new map)
  let p ← p.stepAccounts (PathMap.new map)
  let p ← p.stepLibraries (PathMap.new map)
  pure p.state

end StateParser

/-- `parse_config_with_mandatory_params`: entry point folding the explicit
mandatory list into the mask. -/
def parse_config_with_mandatory_params (config : JMap) (mandatories : List Nat) :
    Except String ConfigParams := do
  let cpm := PathMap.new config
  let parser := StateParser.new
  let parser :=
    if mandatories.isEmpty then parser
    else { parser with mandatory_params :=
      mandatories.foldl (fun s m => s ||| (1 <<< m)) 0 }
  let parser ← parser.parse_config cpm
  pure parser.extra.config

/-- `parse_config`: everything optional. -/
def parse_config (config : JMap) : Except String ConfigParams :=
  parse_config_with_mandatory_params config []

/-- `parse_state`: genesis parsing with the hard-coded mandatory mask. -/
def parse_state (map : JMap) : Except String ShardStateUnsplit :=
  StateParser.for_zero_state.parse_state_unchecked map

/-- `parse_state_unchecked`: snapshot parsing, nothing mandatory. -/
def parse_state_unchecked (map : JMap) : Except String ShardStateUnsplit :=
  StateParser.new.parse_state_unchecked map

/-! ## Relay receipt decoder (`parse_remp_status`) -/

/-- `RempMessageLevel`: the five pipeline stages. -/
inductive RempMessageLevel where
  | collator
  | fullnode
  | masterchain
  | queue
  | shardchain
deriving Repr, DecidableEq

/-- `RempMessageStatus`: the relay message status union. -/
inductive RempMessageStatus where
  | accepted (level : RempMessageLevel) (block_id : BlockIdExt)
      (master_id : BlockIdExt)
  | duplicate (block_id : BlockIdExt)
  | ignored (level : RempMessageLevel) (block_id : BlockIdExt)
  | new
  | rejected (level : RempMessageLevel) (block_id : BlockIdExt) (error : String)
  | sentToValidators (sent_to : Int) (total_validators : Int)
  | timeout
deriving Repr, DecidableEq

/-- `RempReceipt`. -/
structure RempReceipt where
  message_id : UInt256
  status : RempMessageStatus
  timestamp : Int
  source_id : UInt256
deriving Repr, DecidableEq

/-- `parse_block_id_ext`: block identifier from sibling fields, from the
`mc_*` mirror fields when `mc` is set. -/
def parse_block_id_ext (map_path : PathMap) (mc : Bool) :
    Except String BlockIdExt :=
  if mc then do
    let shard ← ShardIdent.withTaggedPfx MASTERCHAIN_ID SHARD_FULL
    let seqno ← map_path.get_num "mc_block_seqno"
    let block_id ← map_path.get_uint256 "mc_block_id"
    let file_hash ← map_path.get_uint256 "mc_block_file_hash"
    pure ⟨shard, u32_cast seqno, block_id, file_hash⟩
  else do
    let wc ← map_path.get_num "wc"
    let shard_s ← map_path.get_str "shard"
    let pfx ← match u64_from_hex_str shard_s with
      | some v => Except.ok v
      | none => Except.error "invalid shard prefix hex"
    let shard ← ShardIdent.withTaggedPfx (i32_cast wc) pfx
    let seqno ← map_path.get_num "block_seqno"
    let block_id ← map_path.get_uint256 "block_id"
    let file_hash ← map_path.get_uint256 "block_file_hash"
    pure ⟨shard, u32_cast seqno, block_id, file_hash⟩

/-- The accepted-group tags and their levels (`IncludedIntoBlock` etc.). -/
def accepted_level? (s : String) : Option RempMessageLevel :=
  if s = "IncludedIntoBlock" then some .collator
  else if s = "AcceptedByFullnode" then some .fullnode
  else if s = "Finalized" then some .masterchain
  else if s = "AcceptedByQueue" then some .queue
  else if s = "IncludedIntoAcceptedBlock" then some .shardchain
  else none

/-- The ignored-group tags and their levels. -/
def ignored_level? (s : String) : Option RempMessageLevel :=
  if s = "IgnoredByCollator" then some .collator
  else if s = "IgnoredByFullNode" then some .fullnode
  else if s = "IgnoredByMasterchain" then some .masterchain
  else if s = "IgnoredByQueue" then some .queue
  else if s = "IgnoredByShardchain" then some .shardchain
  else none

/-- The rejected-group tags and their levels. -/
def rejected_level? (s : String) : Option RempMessageLevel :=
  if s = "RejectedByCollator" then some .collator
  else if s = "RejectedByFullnode" then some .fullnode
  else if s = "RejectedByMasterchain" then some .masterchain
  else if s = "RejectedByQueue" then some .queue
  else if s = "RejectedByShardchain" then some .shardchain
  else none

/-- The `kind` dispatch of `parse_remp_status` (the big string match). -/
def remp_status_of_kind (map_path : PathMap) (s : String) :
    Except String RempMessageStatus :=
  match accepted_level? s with
  | some level => do
    let block_id ← parse_block_id_ext map_path false
    let master_id := match parse_block_id_ext map_path true with
      | .ok b => b
      | .error _ => BlockIdExt.default
    pure (.accepted level block_id master_id)
  | none =>
  if s = "Duplicate" then do
    let block_id ← parse_block_id_ext map_path false
    pure (.duplicate block_id)
  else match ignored_level? s with
  | some level => do
    let block_id ← parse_block_id_ext map_path false
    pure (.ignored level block_id)
  | none =>
  if s = "PutIntoQueue" then pure .new
  else match rejected_level? s with
  | some level => do
    let block_id ← parse_block_id_ext map_path false
    let error ← map_path.get_str "error"
    pure (.rejected level block_id error)
  | none =>
  if s = "SentToValidators" then do
    let sent_to ← map_path.get_num "sent_to"
    let total_validators ← map_path.get_num "total_validators"
    pure (.sentToValidators (i32_cast sent_to) (i32_cast total_validators))
  else if s = "Timeout" then pure .timeout
  else .error ("Unknown status: " ++ s)

/-- `parse_remp_status`: relay receipt plus raw signature bytes. -/
def parse_remp_status (map : JMap) :
    Except String (RempReceipt × List Nat) := do
  let map_path := PathMap.new map
  let source_id ← map_path.get_uint256 "source_id"
  let signature ← map_path.get_base64 "signature"
  let timestamp ← map_path.get_num "timestamp"
  let message_id ← map_path.get_uint256 "message_id"
  let kind ← map_path.get_str "kind"
  let status ← remp_status_of_kind map_path kind
  pure (⟨message_id, status, timestamp, source_id⟩, signature)

/-- The 19 recognized relay `kind` tags, in source order. -/
def remp_kinds : List String :=
  ["IncludedIntoBlock", "AcceptedByFullnode", "Finalized", "AcceptedByQueue",
   "IncludedIntoAcceptedBlock", "Duplicate", "IgnoredByCollator",
   "IgnoredByFullNode", "IgnoredByMasterchain", "IgnoredByQueue",
   "IgnoredByShardchain", "PutIntoQueue", "RejectedByCollator",
   "RejectedByFullnode", "RejectedByMasterchain", "RejectedByQueue",
   "RejectedByShardchain", "SentToValidators", "Timeout"]

/-! ## Spec-side definitions and concrete fixtures -/

deriving instance DecidableEq for Except

/-- The resolution order of the flexible integer decoder exactly as the spec
states it (§4.2): (1) native JSON integer at `F`; (2) string at `F_dec`
parsed base-10; (3) string at `F`, base-16 when `0x`-prefixed, else base-10;
first applicable step wins, `none` when no step applies. -/
def get_num_spec (m : JMap) (F : String) : Option Int :=
  let step3 : Option Int :=
    match jlookup m F with
    | some v =>
      match v.as_str with
      | some s =>
        match strip0x s with
        | some rest => i64_from_hex_chars rest
        | none => i64_from_str s
      | none => none
    | none => none
  let step2 : Option Int :=
    match jlookup m (F ++ "_dec") with
    | some v =>
      match v.as_str with
      | some s => i64_from_str s
      | none => step3
    | none => step3
  match jlookup m F with
  | some v =>
    match v.as_i64 with
    | some n => some n
    | none => step2
  | none => step2

/-- The grams resolution order exactly as the spec states it (§4.2):
(1) native non-negative integer at `F`; (2) decimal string at `F_dec`;
(3) decimal string at `F` — never hex. -/
def get_grams_spec (m : JMap) (F : String) : Option Grams :=
  let step3 : Option Grams :=
    match jlookup m F with
    | some v =>
      match v.as_str with
      | some s => grams_from_str s
      | none => none
    | none => none
  let step2 : Option Grams :=
    match jlookup m (F ++ "_dec") with
    | some v =>
      match v.as_str with
      | some s => grams_from_str s
      | none => step3
    | none => step3
  match jlookup m F with
  | some v =>
    match v.as_u64 with
    | some n => some n
    | none => step2
  | none => step2

/-- Agreement of the implementation's result with the spec-side resolution:
same value on success, and failure exactly when the spec yields `none`. -/
def numAgrees {α : Type} (e : Except String α) (o : Option α) : Prop :=
  match e, o with
  | .ok a, some b => a = b
  | .error _, none => True
  | _, _ => False

/-- A valid 256-bit hash string: 64 zero hex digits. -/
def zeros64 : String := String.mk (List.replicate 64 '0')

/-- A relay-receipt fixture carrying every per-kind field the 19 recognized
tags can require, with the `kind` left as a parameter. -/
def remp_test_map (kind : String) : JMap :=
  [("source_id", JVal.str zeros64), ("signature", JVal.str ""),
   ("timestamp", JVal.num 7), ("message_id", JVal.str zeros64),
   ("kind", JVal.str kind),
   ("wc", JVal.num 0), ("shard", JVal.str "8000000000000000"),
   ("block_seqno", JVal.num 5), ("block_id", JVal.str zeros64),
   ("block_file_hash", JVal.str zeros64),
   ("error", JVal.str "err"), ("sent_to", JVal.num 3),
   ("total_validators", JVal.num 9)]

/-- The block identifier the fixture's sibling fields decode to. -/
def remp_block : BlockIdExt := ⟨⟨0, SHARD_FULL⟩, 5, 0, 0⟩

/-- The full documented tag table: each recognized `kind` with the status
variant and pipeline level it must map to on the fixture. -/
def remp_expected : List (String × RempMessageStatus) :=
  [("IncludedIntoBlock", .accepted .collator remp_block BlockIdExt.default),
   ("AcceptedByFullnode", .accepted .fullnode remp_block BlockIdExt.default),
   ("Finalized", .accepted .masterchain remp_block BlockIdExt.default),
   ("AcceptedByQueue", .accepted .queue remp_block BlockIdExt.default),
   ("IncludedIntoAcceptedBlock",
     .accepted .shardchain remp_block BlockIdExt.default),
   ("Duplicate", .duplicate remp_block),
   ("IgnoredByCollator", .ignored .collator remp_block),
   ("IgnoredByFullNode", .ignored .fullnode remp_block),
   ("IgnoredByMasterchain", .ignored .masterchain remp_block),
   ("IgnoredByQueue", .ignored .queue remp_block),
   ("IgnoredByShardchain", .ignored .shardchain remp_block),
   ("PutIntoQueue", .new),
   ("RejectedByCollator", .rejected .collator remp_block "err"),
   ("RejectedByFullnode", .rejected .fullnode remp_block "err"),
   ("RejectedByMasterchain", .rejected .masterchain remp_block "err"),
   ("RejectedByQueue", .rejected .queue remp_block "err"),
   ("RejectedByShardchain", .rejected .shardchain remp_block "err"),
   ("SentToValidators", .sentToValidators 3 9),
   ("Timeout", .timeout)]

/-- The C10 fixture: the eight proposal-setup fields with `min_tot_rounds`
out of `u8` range (300) and `min_store_sec` out of nothing (in range). -/
def c10_map : JMap :=
  [("min_tot_rounds", JVal.num 300), ("max_tot_rounds", JVal.num 4),
   ("min_wins", JVal.num 2), ("max_losses", JVal.num 2),
   ("min_store_sec", JVal.num 1000000), ("max_store_sec", JVal.num 10000000),
   ("bit_price", JVal.num 1), ("cell_price", JVal.num 500)]

/-- The state produced by snapshot-parsing the empty map: everything at its
default, except the `min_ref_mc_seqno` preset to `u32::MAX`. -/
def c8_default_state : ShardStateUnsplit :=
  { shard_ident := ShardIdent.masterchain, min_ref_mc_seqno := 0xFFFFFFFF }

/-! ## Helper lemmas -/

theorem except_bind_ok {α β : Type} {x : Except String α}
    {f : α → Except String β} {b : β} (h : (x >>= f) = .ok b) :
    ∃ a, x = .ok a ∧ f a = .ok b := by
  cases x with
  | ok a => exact ⟨a, rfl, h⟩
  | error e => exact Except.noConfusion h

theorem parse_parameter_state {st : StateParser} {config : PathMap} {num : Nat}
    {f : PathMap → Except String ConfigParamEnum} {st' : StateParser}
    (h : st.parse_parameter config num f = .ok st') : st'.state = st.state := by
  unfold StateParser.parse_parameter at h
  rcases hobj : config.get_obj ("p" ++ toString num) with e | p <;>
    simp only [hobj] at h
  · by_cases hn : st.is_need num
    · simp [hn] at h
    · simp [hn] at h
      subst h
      rfl
  · rcases hf : f p with e2 | cp <;> simp only [hf] at h
    · exact Except.noConfusion h
    · rcases hsc : st.extra.config.set_config cp with e3 | c <;>
        simp only [hsc] at h
      · exact Except.noConfusion h
      · injection h with h
        subst h
        rfl

theorem parse_array_state {st : StateParser} {config : PathMap} {num : Nat}
    {f : List JVal → Except String ConfigParamEnum} {st' : StateParser}
    (h : st.parse_array config num f = .ok st') : st'.state = st.state := by
  unfold StateParser.parse_array at h
  rcases hobj : config.get_vec ("p" ++ toString num) with e | v <;>
    simp only [hobj] at h
  · by_cases hn : st.is_need num
    · simp [hn] at h
    · simp [hn] at h
      subst h
      rfl
  · rcases hf : f v with e2 | cp <;> simp only [hf] at h
    · exact Except.noConfusion h
    · rcases hsc : st.extra.config.set_config cp with e3 | c <;>
        simp only [hsc] at h
      · exact Except.noConfusion h
      · injection h with h
        subst h
        rfl

theorem parse_uint256_state {st : StateParser} {config : PathMap} {num : Nat}
    {f : UInt256 → Except String ConfigParamEnum} {st' : StateParser}
    (h : st.parse_uint256 config num f = .ok st') : st'.state = st.state := by
  unfold StateParser.parse_uint256 at h
  rcases hobj : config.get_uint256 ("p" ++ toString num) with e | p <;>
    simp only [hobj] at h
  · by_cases hn : st.is_need num
    · simp [hn] at h
    · simp [hn] at h
      subst h
      rfl
  · rcases hf : f p with e2 | cp <;> simp only [hf] at h
    · exact Except.noConfusion h
    · rcases hsc : st.extra.config.set_config cp with e3 | c <;>
        simp only [hsc] at h
      · exact Except.noConfusion h
      · injection h with h
        subst h
        rfl

theorem set_config_raw_state {st : StateParser} {p : ConfigParamEnum}
    {st' : StateParser} (h : st.set_config_raw p = .ok st') :
    st'.state = st.state := by
  unfold StateParser.set_config_raw at h
  split at h
  · cases h; rfl
  · exact Except.noConfusion h

theorem parse_param_set_state {st : StateParser} {config : PathMap}
    {st' : StateParser} (h : st.parse_param_set config = .ok st') :
    st'.state = st.state := by
  unfold StateParser.parse_param_set at h
  rcases h9 : st.parse_param_set_params config 9 with e | r9 <;>
    simp only [h9] at h
  · exact Except.noConfusion h
  · have mid : ∀ s1 : StateParser,
        (match r9 with
         | some mandatory_params =>
           st.set_config_raw (ConfigParamEnum.param9 mandatory_params)
         | none => Except.ok st) = .ok s1 → s1.state = st.state := by
      intro s1 h1
      cases r9 with
      | some mp => exact set_config_raw_state h1
      | none => injection h1 with h1; subst h1; rfl
    rcases hmid : (match r9 with
        | some mandatory_params =>
          st.set_config_raw (ConfigParamEnum.param9 mandatory_params)
        | none => Except.ok st) with e | s1 <;> simp only [hmid] at h
    · exact Except.noConfusion h
    · rcases h10 : s1.parse_param_set_params config 10 with e | r10 <;>
        simp only [h10] at h
      · exact Except.noConfusion h
      · have last : st'.state = s1.state := by
          cases r10 with
          | some cp => exact set_config_raw_state h
          | none => injection h with h; subst h; rfl
        rw [last, mid s1 hmid]

theorem parse_p11_state {st : StateParser} {config : PathMap}
    {st' : StateParser} (h : st.parse_p11 config = .ok st') :
    st'.state = st.state := by
  unfold StateParser.parse_p11 at h
  exact parse_parameter_state h

theorem parse_p12_state {st : StateParser} {config : PathMap}
    {st' : StateParser} (h : st.parse_p12 config = .ok st') :
    st'.state = st.state := by
  unfold StateParser.parse_p12 at h
  exact parse_array_state h

theorem parse_storage_prices_state {st : StateParser} {config : PathMap}
    {st' : StateParser} (h : st.parse_storage_prices config = .ok st') :
    st'.state = st.state := by
  unfold StateParser.parse_storage_prices at h
  exact parse_array_state h

theorem parse_gas_limits_state {st : StateParser} {config : PathMap}
    {st' : StateParser} (h : st.parse_gas_limits config = .ok st') :
    st'.state = st.state := by
  unfold StateParser.parse_gas_limits at h
  obtain ⟨s1, h1, h⟩ := except_bind_ok h
  rw [parse_parameter_state h, parse_parameter_state h1]

theorem parse_block_limits_state {st : StateParser} {config : PathMap}
    {st' : StateParser} (h : st.parse_block_limits config = .ok st') :
    st'.state = st.state := by
  unfold StateParser.parse_block_limits at h
  obtain ⟨s1, h1, h⟩ := except_bind_ok h
  rw [parse_parameter_state h, parse_parameter_state h1]

theorem parse_msg_forward_prices_state {st : StateParser} {config : PathMap}
    {st' : StateParser} (h : st.parse_msg_forward_prices config = .ok st') :
    st'.state = st.state := by
  unfold StateParser.parse_msg_forward_prices at h
  obtain ⟨s1, h1, h⟩ := except_bind_ok h
  rw [parse_parameter_state h, parse_parameter_state h1]

theorem parse_mesh_config_state {st : StateParser} {config : PathMap}
    {st' : StateParser} (h : st.parse_mesh_config config = .ok st') :
    st'.state = st.state := by
  unfold StateParser.parse_mesh_config at h
  exact parse_array_state h

theorem p40_step_state {st : StateParser} {config : PathMap}
    {st' : StateParser} (h : st.p40_step config = .ok st') :
    st'.state = st.state := by
  unfold StateParser.p40_step at h
  exact set_config_raw_state h

theorem p42_step_state {st : StateParser} {config : PathMap}
    {st' : StateParser} (h : st.p42_step config = .ok st') :
    st'.state = st.state := by
  unfold StateParser.p42_step at h
  exact parse_parameter_state h

theorem p61_step_state {st : StateParser} {config : PathMap}
    {st' : StateParser} (h : st.p61_step config = .ok st') :
    st'.state = st.state := by
  unfold StateParser.p61_step at h
  rcases hobj : config.get_obj "p61" with e | p61 <;> simp only [hobj] at h
  · injection h with h; subst h; rfl
  · exact set_config_raw_state h

theorem parse_config_state {st : StateParser} {config : PathMap}
    {st' : StateParser} (h : st.parse_config config = .ok st') :
    st'.state = st.state := by
  unfold StateParser.parse_config at h
  obtain ⟨s1, h1, h⟩ := except_bind_ok h
  obtain ⟨s2, h2, h⟩ := except_bind_ok h
  obtain ⟨s3, h3, h⟩ := except_bind_ok h
  obtain ⟨s4, h4, h⟩ := except_bind_ok h
  obtain ⟨s5, h5, h⟩ := except_bind_ok h
  obtain ⟨s6, h6, h⟩ := except_bind_ok h
  obtain ⟨s7, h7, h⟩ := except_bind_ok h
  obtain ⟨s8, h8, h⟩ := except_bind_ok h
  obtain ⟨s9, h9, h⟩ := except_bind_ok h
  obtain ⟨s10, h10, h⟩ := except_bind_ok h
  obtain ⟨s11, h11, h⟩ := except_bind_ok h
  obtain ⟨s12, h12, h⟩ := except_bind_ok h
  obtain ⟨s13, h13, h⟩ := except_bind_ok h
  obtain ⟨s14, h14, h⟩ := except_bind_ok h
  obtain ⟨s15, h15, h⟩ := except_bind_ok h
  obtain ⟨s16, h16, h⟩ := except_bind_ok h
  obtain ⟨s17, h17, h⟩ := except_bind_ok h
  obtain ⟨s18, h18, h⟩ := except_bind_ok h
  obtain ⟨s19, h19, h⟩ := except_bind_ok h
  obtain ⟨s20, h20, h⟩ := except_bind_ok h
  obtain ⟨s21, h21, h⟩ := except_bind_ok h
  obtain ⟨s22, h22, h⟩ := except_bind_ok h
  obtain ⟨s23, h23, h⟩ := except_bind_ok h
  obtain ⟨s24, h24, h⟩ := except_bind_ok h
  obtain ⟨s25, h25, h⟩ := except_bind_ok h
  obtain ⟨s26, h26, h⟩ := except_bind_ok h
  obtain ⟨s27, h27, h⟩ := except_bind_ok h
  obtain ⟨s28, h28, h⟩ := except_bind_ok h
  obtain ⟨s29, h29, h⟩ := except_bind_ok h
  obtain ⟨s30, h30, h⟩ := except_bind_ok h
  obtain ⟨s31, h31, h⟩ := except_bind_ok h
  obtain ⟨s32, h32, h⟩ := except_bind_ok h
  obtain ⟨s33, h33, h⟩ := except_bind_ok h
  obtain ⟨s34, h34, h⟩ := except_bind_ok h
  obtain ⟨s35, h35, h⟩ := except_bind_ok h
  obtain ⟨s36, h36, h⟩ := except_bind_ok h
  obtain ⟨s37, h37, h⟩ := except_bind_ok h
  obtain ⟨s38, h38, h⟩ := except_bind_ok h
  injection h with h
  subst h
  rw [parse_parameter_state h38, p61_step_state h37, parse_mesh_config_state h36, parse_array_state h35, p42_step_state h34, p40_step_state h33, parse_array_state h32, parse_parameter_state h31, parse_parameter_state h30, parse_parameter_state h29, parse_parameter_state h28, parse_parameter_state h27, parse_parameter_state h26, parse_array_state h25, parse_parameter_state h24, parse_parameter_state h23, parse_parameter_state h22, parse_msg_forward_prices_state h21, parse_block_limits_state h20, parse_gas_limits_state h19, parse_storage_prices_state h18, parse_parameter_state h17, parse_parameter_state h16, parse_parameter_state h15, parse_parameter_state h14, parse_parameter_state h13, parse_p12_state h12, parse_p11_state h11, parse_param_set_state h10, parse_parameter_state h9, parse_array_state h8, parse_parameter_state h7, parse_uint256_state h6, parse_uint256_state h5, parse_uint256_state h4, parse_uint256_state h3, parse_uint256_state h2, parse_uint256_state h1]

theorem stepGlobalId_ok {st st' : StateParser} {mp : PathMap}
    (h : st.stepGlobalId mp = .ok st') :
    st'.mandatory_params = st.mandatory_params ∧
    st'.state.gen_time = st.state.gen_time ∧
    st'.state.total_balance = st.state.total_balance := by
  unfold StateParser.stepGlobalId at h
  rcases hg : mp.get_num "global_id" with e | v <;> simp only [hg] at h
  · by_cases hn : st.mandatory_params ≠ 0 <;> simp [hn] at h
    subst h
    exact ⟨rfl, rfl, rfl⟩
  · injection h with h
    subst h
    exact ⟨rfl, rfl, rfl⟩

theorem stepGlobalId_skip {st st' : StateParser} {mp : PathMap} {e : String}
    (hg : mp.get_num "global_id" = .error e) (hm : st.mandatory_params = 0)
    (h : st.stepGlobalId mp = .ok st') : st' = st := by
  unfold StateParser.stepGlobalId at h
  rw [hg] at h
  simp [hm] at h
  exact h.symm

theorem stepGlobalId_fail {st : StateParser} {mp : PathMap} {e : String}
    (hg : mp.get_num "global_id" = .error e) (hm : st.mandatory_params ≠ 0) :
    st.stepGlobalId mp = .error e := by
  unfold StateParser.stepGlobalId
  rw [hg]
  simp [hm]

theorem stepGenUtime_ok {st st' : StateParser} {mp : PathMap}
    (h : st.stepGenUtime mp = .ok st') :
    st'.mandatory_params = st.mandatory_params ∧
    st'.state.global_id = st.state.global_id ∧
    st'.state.total_balance = st.state.total_balance := by
  unfold StateParser.stepGenUtime at h
  rcases hg : mp.get_num "gen_utime" with e | v <;> simp only [hg] at h
  · by_cases hn : st.mandatory_params ≠ 0 <;> simp [hn] at h
    subst h
    exact ⟨rfl, rfl, rfl⟩
  · injection h with h
    subst h
    exact ⟨rfl, rfl, rfl⟩

theorem stepGenUtime_skip {st st' : StateParser} {mp : PathMap} {e : String}
    (hg : mp.get_num "gen_utime" = .error e) (hm : st.mandatory_params = 0)
    (h : st.stepGenUtime mp = .ok st') : st' = st := by
  unfold StateParser.stepGenUtime at h
  rw [hg] at h
  simp [hm] at h
  exact h.symm

theorem stepGenUtime_fail {st : StateParser} {mp : PathMap} {e : String}
    (hg : mp.get_num "gen_utime" = .error e) (hm : st.mandatory_params ≠ 0) :
    st.stepGenUtime mp = .error e := by
  unfold StateParser.stepGenUtime
  rw [hg]
  simp [hm]

theorem stepTotalBalance_ok {st st' : StateParser} {mp : PathMap}
    (h : st.stepTotalBalance mp = .ok st') :
    st'.mandatory_params = st.mandatory_params ∧
    st'.state.global_id = st.state.global_id ∧
    st'.state.gen_time = st.state.gen_time := by
  unfold StateParser.stepTotalBalance at h
  rcases hg : mp.get_grams "total_balance" with e | v <;> simp only [hg] at h
  · by_cases hn : st.mandatory_params ≠ 0 <;> simp [hn] at h
    subst h
    exact ⟨rfl, rfl, rfl⟩
  · injection h with h
    subst h
    exact ⟨rfl, rfl, rfl⟩

theorem stepTotalBalance_skip {st st' : StateParser} {mp : PathMap} {e : String}
    (hg : mp.get_grams "total_balance" = .error e) (hm : st.mandatory_params = 0)
    (h : st.stepTotalBalance mp = .ok st') : st' = st := by
  unfold StateParser.stepTotalBalance at h
  rw [hg] at h
  simp [hm] at h
  exact h.symm

theorem stepTotalBalance_fail {st : StateParser} {mp : PathMap} {e : String}
    (hg : mp.get_grams "total_balance" = .error e) (hm : st.mandatory_params ≠ 0) :
    st.stepTotalBalance mp = .error e := by
  unfold StateParser.stepTotalBalance
  rw [hg]
  simp [hm]

theorem masterConfigAddr_state {st st' : StateParser} {master : PathMap}
    (h : st.masterConfigAddr master = .ok st') : st'.state = st.state := by
  unfold StateParser.masterConfigAddr at h
  rcases hg : master.get_uint256 "config_addr" with e | a <;> simp only [hg] at h
  · by_cases hn : st.mandatory_params ≠ 0 <;> simp [hn] at h
    subst h
    rfl
  · injection h with h
    subst h
    rfl

theorem masterVlhs_state {st st' : StateParser} {master : PathMap}
    (h : st.masterVlhs master = .ok st') : st'.state = st.state := by
  unfold StateParser.masterVlhs at h
  rcases hg : master.get_num "validator_list_hash_short" with e | a <;>
    simp only [hg] at h
  · by_cases hn : st.mandatory_params ≠ 0 <;> simp [hn] at h
    subst h
    rfl
  · injection h with h
    subst h
    rfl

theorem masterCatchainSeqno_state {st st' : StateParser} {master : PathMap}
    (h : st.masterCatchainSeqno master = .ok st') : st'.state = st.state := by
  unfold StateParser.masterCatchainSeqno at h
  rcases hg : master.get_num "catchain_seqno" with e | a <;> simp only [hg] at h
  · by_cases hn : st.mandatory_params ≠ 0 <;> simp [hn] at h
    subst h
    rfl
  · injection h with h
    subst h
    rfl

theorem masterNxCc_state {st st' : StateParser} {master : PathMap}
    (h : st.masterNxCc master = .ok st') : st'.state = st.state := by
  unfold StateParser.masterNxCc at h
  rcases hg : master.get_bool "nx_cc_updated" with e | a <;> simp only [hg] at h
  · by_cases hn : st.mandatory_params ≠ 0 <;> simp [hn] at h
    subst h
    rfl
  · injection h with h
    subst h
    rfl

theorem masterGlobalBalance_state {st st' : StateParser} {master : PathMap}
    (h : st.masterGlobalBalance master = .ok st') : st'.state = st.state := by
  unfold StateParser.masterGlobalBalance at h
  rcases hg : master.get_grams "global_balance" with e | a <;> simp only [hg] at h
  · by_cases hn : st.mandatory_params ≠ 0 <;> simp [hn] at h
    subst h
    rfl
  · injection h with h
    subst h
    rfl

theorem stepMaster_fields {st st' : StateParser} {mp : PathMap}
    (h : st.stepMaster mp = .ok st') :
    st'.state.global_id = st.state.global_id ∧
    st'.state.gen_time = st.state.gen_time ∧
    st'.state.total_balance = st.state.total_balance := by
  unfold StateParser.stepMaster at h
  rcases hm : mp.get_obj "master" with e | master <;> simp only [hm] at h
  · by_cases hn : st.mandatory_params ≠ 0 <;> simp [hn] at h
    subst h
    exact ⟨rfl, rfl, rfl⟩
  · obtain ⟨cfg, hcfg, h⟩ := except_bind_ok h
    obtain ⟨s1, h1, h⟩ := except_bind_ok h
    obtain ⟨s2, h2, h⟩ := except_bind_ok h
    obtain ⟨s3, h3, h⟩ := except_bind_ok h
    obtain ⟨s4, h4, h⟩ := except_bind_ok h
    obtain ⟨s5, h5, h⟩ := except_bind_ok h
    obtain ⟨s6, h6, h⟩ := except_bind_ok h
    injection h with h
    subst h
    have e := parse_config_state h1
    have e2 := masterConfigAddr_state h2
    have e3 := masterVlhs_state h3
    have e4 := masterCatchainSeqno_state h4
    have e5 := masterNxCc_state h5
    have e6 := masterGlobalBalance_state h6
    refine ⟨?_, ?_, ?_⟩ <;>
      simp only [e6, e5, e4, e3, e2, e]

theorem stepAccounts_fields {st st' : StateParser} {mp : PathMap}
    (h : st.stepAccounts mp = .ok st') :
    st'.state.global_id = st.state.global_id ∧
    st'.state.gen_time = st.state.gen_time ∧
    st'.state.total_balance = st.state.total_balance := by
  unfold StateParser.stepAccounts at h
  rcases hv : mp.get_vec "accounts" with e | accounts <;> simp only [hv] at h
  · injection h with h
    subst h
    exact ⟨rfl, rfl, rfl⟩
  · obtain ⟨sa, hsa, h⟩ := except_bind_ok h
    injection h with h
    subst h
    exact ⟨rfl, rfl, rfl⟩

theorem stepLibraries_fields {st st' : StateParser} {mp : PathMap}
    (h : st.stepLibraries mp = .ok st') :
    st'.state.global_id = st.state.global_id ∧
    st'.state.gen_time = st.state.gen_time ∧
    st'.state.total_balance = st.state.total_balance := by
  unfold StateParser.stepLibraries at h
  rcases hv : mp.get_vec "libraries" with e | libraries <;> simp only [hv] at h
  · injection h with h
    subst h
    exact ⟨rfl, rfl, rfl⟩
  · obtain ⟨libs, hlibs, h⟩ := except_bind_ok h
    injection h with h
    subst h
    exact ⟨rfl, rfl, rfl⟩

theorem bind_ok_eq {α β : Type} (a : α) (f : α → Except String β) :
    (Except.ok a >>= f) = f a := rfl

theorem bind_error_eq {α β : Type} (e : String) (f : α → Except String β) :
    ((Except.error e : Except String α) >>= f) = Except.error e := rfl

theorem remp_unknown_kind (mp : PathMap) (s : String) (h : s ∉ remp_kinds) :
    remp_status_of_kind mp s = .error ("Unknown status: " ++ s) := by
  simp only [remp_kinds, List.mem_cons, List.not_mem_nil, or_false] at h
  push_neg at h
  obtain ⟨h1, h2, h3, h4, h5, h6, h7, h8, h9, h10, h11, h12, h13, h14, h15,
    h16, h17, h18, h19⟩ := h
  simp [remp_status_of_kind, accepted_level?, ignored_level?, rejected_level?,
    h1, h2, h3, h4, h5, h6, h7, h8, h9, h10, h11, h12, h13, h14, h15, h16,
    h17, h18, h19]

/-! ## The claims -/

/-- C1: the genesis mask (`StateParser::for_zero_state`) makes `is_need`
true exactly on the bits of the literal `0x0000_0004_B3F7_CF87` — which is
the documented set {0,1,2,7,8,9,10,11,12,14,15,16,17,18,20,21,22,23,24,25,
28,29,31,34} **minus 12**: the constant's byte `0xCF` drops bit 12 that the
derivation comment above it (fold of the listed identifiers, `0x..DF87`)
includes, so `is_need 12` is `false` where the claim requires `true`. -/
theorem genesis_mask_excludes_param12 :
    ((List.range 64).filter (fun n => StateParser.for_zero_state.is_need n)) =
      [0, 1, 2, 7, 8, 9, 10, 11, 14, 15, 16, 17, 18, 20, 21, 22, 23, 24, 25,
       28, 29, 31, 34] ∧
    StateParser.for_zero_state.is_need 12 = false ∧
    StateParser.for_zero_state.is_need 34 = true := by decide

/-- C3 counterexample: `p42` is **not** handled by the soft best-effort
pattern — a present-but-empty `p42` object aborts the whole parse on its
missing `threshold` sub-field (instead of keeping defaults), and an absent
`p42` under mandatory bit 42 aborts (the mandatory mask **is** consulted). -/
theorem soft_params_p42_counterexample :
    parse_config_with_mandatory_params [("p42", JVal.obj [])] [] =
      .error "root/p42/threshold must be the integer or a string with the integer" ∧
    parse_config_with_mandatory_params [] [42] =
      .error "parameter p42 not found: root must have the field `p42`" :=
  ⟨rfl, rfl⟩

/-- C3 amended: `p40` and `p61` follow the soft pattern — their sub-fields
are populated best-effort (a missing/invalid sub-field keeps the type's
default) and the mandatory bit is never consulted; `p40` is set even when
the object is absent, `p61` only when present.  `p42`, however, goes through
the ordinary mandatory-gated single-object adapter: absence consults
mandatory bit 42, and its `threshold` sub-field (like its `payouts` array)
is required — only the per-payout `license_type`/`payout_percent` fields
are best-effort. -/
theorem soft_params_amended :
    (∀ (st : StateParser) (config : PathMap),
      st.p40_step config =
        st.set_config_raw (.param40 (StateParser.parse_p40_slashing config))) ∧
    (∀ (config : PathMap) (e : String), config.get_obj "p40" = .error e →
      StateParser.parse_p40_slashing config = {}) ∧
    (∀ (st : StateParser) (config p61 : PathMap),
      config.get_obj "p61" = .ok p61 →
      st.p61_step config =
        st.set_config_raw (.param61 (StateParser.parse_p61_ff p61))) ∧
    (∀ (st : StateParser) (config : PathMap) (e : String),
      config.get_obj "p61" = .error e → st.p61_step config = .ok st) ∧
    (∀ (st : StateParser) (config : PathMap) (e : String),
      config.get_obj "p42" = .error e →
      st.p42_step config =
        (if st.is_need 42 then .error ("parameter p42 not found: " ++ e)
         else .ok st)) ∧
    (∀ (st : StateParser) (config p42 : PathMap) (e : String),
      config.get_obj "p42" = .ok p42 →
      p42.get_grams "threshold" = .error e →
      st.p42_step config = .error e) := by
  have hp : ("p" ++ toString (42 : Nat) : String) = "p42" := rfl
  refine ⟨fun st config => rfl, ?_, ?_, ?_, ?_, ?_⟩
  · intro config e h
    simp only [StateParser.parse_p40_slashing, h]
  · intro st config p61 h
    simp only [StateParser.p61_step, h]
  · intro st config e h
    simp only [StateParser.p61_step, h]
  · intro st config e h
    simp only [StateParser.p42_step, StateParser.parse_parameter, hp, h]
    split <;> rfl
  · intro st config p42 e h42 hthr
    simp only [StateParser.p42_step, StateParser.parse_parameter, hp, h42,
      StateParser.parse_p42_body, hthr, bind_error_eq]

/-- C3 witness: the amended soft-parameter facts instantiated concretely —
an absent `p40` yields the default slashing record; a present-but-empty
`p42` aborts the adapter with the missing-threshold error. -/
theorem soft_params_amended_witness :
    StateParser.parse_p40_slashing (PathMap.new []) = {} ∧
    StateParser.new.p42_step (PathMap.new [("p42", JVal.obj [])]) =
      .error "root/p42/threshold must be the integer or a string with the integer" ∧
    StateParser.new.p61_step (PathMap.new []) = .ok StateParser.new :=
  ⟨soft_params_amended.2.1 (PathMap.new [])
      "root must have the field `p40`" rfl,
   soft_params_amended.2.2.2.2.2 StateParser.new
      (PathMap.new [("p42", JVal.obj [])])
      ⟨[], ["root", "p42"]⟩
      "root/p42/threshold must be the integer or a string with the integer"
      rfl rfl,
   soft_params_amended.2.2.2.1 StateParser.new (PathMap.new [])
      "root must have the field `p61`" rfl⟩

/-- C4 counterexample: the relay `kind` table recognizes **19** distinct
tags (all succeeding on a fully-populated receipt map), not 17 as the claim
counts. -/
theorem remp_nineteen_kinds_counterexample :
    remp_kinds.length = 19 ∧ remp_kinds.Nodup ∧
    (remp_expected.map Prod.fst = remp_kinds) ∧
    (remp_expected.all (fun kv =>
      decide (parse_remp_status (remp_test_map kv.1) =
        .ok (⟨0, kv.2, 7, 0⟩, ([] : List Nat))))) = true := by decide

/-- C4 amended: `parse_remp_status` maps each of the **19** documented relay
`kind` strings to exactly one status variant carrying the pipeline level of
that tag (`IncludedIntoBlock` ↦ Accepted at collator level, `IgnoredByQueue`
↦ Ignored at queue level, `RejectedByMasterchain` ↦ Rejected at masterchain
level, `PutIntoQueue` ↦ New, `Timeout` ↦ Timeout, …), and every `kind`
outside the table fails with the unknown-status error. -/
theorem remp_kind_table_amended :
    (∀ kv ∈ remp_expected,
      parse_remp_status (remp_test_map kv.1) =
        .ok (⟨0, kv.2, 7, 0⟩, ([] : List Nat))) ∧
    remp_expected.map Prod.fst = remp_kinds ∧
    remp_kinds.length = 19 ∧
    (∀ s, s ∉ remp_kinds →
      parse_remp_status (remp_test_map s) =
        .error ("Unknown status: " ++ s)) := by
  refine ⟨by decide, by decide, by decide, ?_⟩
  intro s hs
  have hred : parse_remp_status (remp_test_map s) =
      (remp_status_of_kind (PathMap.new (remp_test_map s)) s).bind
        (fun status => .ok (⟨0, status, 7, 0⟩, ([] : List Nat))) := rfl
  rw [hred, remp_unknown_kind _ s hs]
  rfl

/-- C4 witness: the amended table applied to concrete tags — `Timeout`
parses to the timeout status, and the out-of-table tag `Bogus` fails with
the unknown-status error. -/
theorem remp_kind_table_amended_witness :
    parse_remp_status (remp_test_map "Timeout") =
      .ok (⟨0, .timeout, 7, 0⟩, ([] : List Nat)) ∧
    parse_remp_status (remp_test_map "Bogus") =
      .error "Unknown status: Bogus" :=
  ⟨remp_kind_table_amended.1 ("Timeout", .timeout) (by decide),
   remp_kind_table_amended.2.2.2 "Bogus" (by decide)⟩

/-- C5: `get_num` resolves every field in the spec's order — (1) native JSON
integer at `F`; (2) string at `F_dec` parsed base-10; (3) string at `F`,
base-16 when `0x`-prefixed, else base-10 — the first applicable step wins,
and the call fails when no step applies (full agreement with the spec-side
`get_num_spec`); in particular the four encodings of 42 all yield 42. -/
theorem get_num_resolution_order :
    (∀ (m : JMap) (path : List String) (F : String),
      numAgrees ((PathMap.mk m path).get_num F) (get_num_spec m F)) ∧
    (PathMap.new [("x", JVal.num 42)]).get_num "x" = .ok 42 ∧
    (PathMap.new [("x_dec", JVal.str "42")]).get_num "x" = .ok 42 ∧
    (PathMap.new [("x", JVal.str "0x2A")]).get_num "x" = .ok 42 ∧
    (PathMap.new [("x", JVal.str "42")]).get_num "x" = .ok 42 := by
  refine ⟨?_, rfl, rfl, rfl, rfl⟩
  intro m path F
  simp only [PathMap.get_num, get_num_spec]
  rcases h1 : jlookup m F with _ | v
  · rcases h2 : jlookup m (F ++ "_dec") with _ | w
    · simp [h1, h2, numAgrees]
    · rcases hw : w.as_str with _ | s
      · simp [h1, h2, hw, numAgrees]
      · rcases hs : i64_from_str s with _ | n <;>
          simp [h1, h2, hw, hs, numAgrees]
  · rcases hv : v.as_i64 with _ | n
    · rcases h2 : jlookup m (F ++ "_dec") with _ | w
      · rcases hv2 : v.as_str with _ | s
        · simp [h1, h2, hv, hv2, numAgrees]
        · rcases hpre : strip0x s with _ | rest
          · rcases hh : i64_from_str s with _ | k <;>
              simp [h1, h2, hv, hv2, hpre, hh, numAgrees]
          · rcases hh : i64_from_hex_chars rest with _ | k <;>
              simp [h1, h2, hv, hv2, hpre, hh, numAgrees]
      · rcases hw : w.as_str with _ | s
        · rcases hv2 : v.as_str with _ | s
          · simp [h1, h2, hv, hw, hv2, numAgrees]
          · rcases hpre : strip0x s with _ | rest
            · rcases hh : i64_from_str s with _ | k <;>
                simp [h1, h2, hv, hw, hv2, hpre, hh, numAgrees]
            · rcases hh : i64_from_hex_chars rest with _ | k <;>
                simp [h1, h2, hv, hw, hv2, hpre, hh, numAgrees]
        · rcases hs : i64_from_str s with _ | n <;>
            simp [h1, h2, hv, hw, hs, numAgrees]
    · simp [h1, hv, numAgrees]

/-- C6: `get_grams` never accepts hex and resolves in the spec's order —
(1) native non-negative integer at `F`; (2) decimal string at `F_dec`;
(3) decimal string at `F` (full agreement with the spec-side
`get_grams_spec`): `x = "0x2A"` fails, `x = "42"` and `x_dec = "42"` both
yield 42, and a native JSON value at `F` is accepted exactly when it is a
non-negative integer (in u64 range). -/
theorem get_grams_decimal_only :
    (∀ (m : JMap) (path : List String) (F : String),
      numAgrees ((PathMap.mk m path).get_grams F) (get_grams_spec m F)) ∧
    (PathMap.new [("x", JVal.str "0x2A")]).get_grams "x" =
      .error "root/x must be the integer or a string with the integer 0x2A: parse error" ∧
    (PathMap.new [("x", JVal.str "42")]).get_grams "x" = .ok 42 ∧
    (PathMap.new [("x_dec", JVal.str "42")]).get_grams "x" = .ok 42 ∧
    (∀ (m : JMap) (path : List String) (F : String) (n : Int),
      jlookup m F = some (.num n) → 0 ≤ n → n < 2 ^ 64 →
      (PathMap.mk m path).get_grams F = .ok n.toNat) := by
  refine ⟨?_, rfl, rfl, rfl, ?_⟩
  · intro m path F
    simp only [PathMap.get_grams, get_grams_spec]
    rcases h1 : jlookup m F with _ | v
    · rcases h2 : jlookup m (F ++ "_dec") with _ | w
      · simp [h1, h2, numAgrees]
      · rcases hw : w.as_str with _ | s
        · simp [h1, h2, hw, numAgrees]
        · rcases hs : grams_from_str s with _ | n <;>
            simp [h1, h2, hw, hs, numAgrees]
    · rcases hv : v.as_u64 with _ | n
      · rcases h2 : jlookup m (F ++ "_dec") with _ | w
        · rcases hv2 : v.as_str with _ | s
          · simp [h1, h2, hv, hv2, numAgrees]
          · rcases hh : grams_from_str s with _ | k <;>
              simp [h1, h2, hv, hv2, hh, numAgrees]
        · rcases hw : w.as_str with _ | s
          · rcases hv2 : v.as_str with _ | s
            · simp [h1, h2, hv, hw, hv2, numAgrees]
            · rcases hh : grams_from_str s with _ | k <;>
                simp [h1, h2, hv, hw, hv2, hh, numAgrees]
          · rcases hs : grams_from_str s with _ | n <;>
              simp [h1, h2, hv, hw, hs, numAgrees]
      · simp [h1, hv, numAgrees]
  · intro m path F n hlook h0 h64
    have h64x : n < (18446744073709551616 : Int) := by
      calc n < 2 ^ 64 := h64
      _ = (18446744073709551616 : Int) := by norm_num
    simp only [PathMap.get_grams]
    simp [hlook, JVal.as_u64, h0, h64x]

/-- C6 witness: the native-integer acceptance applied concretely — a native
5 at `x` yields 5 grams. -/
theorem get_grams_decimal_only_witness :
    (PathMap.mk [("x", JVal.num 5)] ["root"]).get_grams "x" = .ok 5 :=
  get_grams_decimal_only.2.2.2.2 [("x", JVal.num 5)] ["root"] "x" 5 rfl
    (by decide) (by decide)

/-- C7: `is_need n` is true iff bit `n` of the mandatory mask is set, and
each uniform adapter (`parse_parameter`, `parse_array`, `parse_uint256`),
when the field `p<n>` cannot be read, fails iff `is_need n` — otherwise it
returns the parser unchanged (the parameter is silently omitted, no error). -/
theorem adapter_mandatory_gate :
    (∀ (st : StateParser) (n : Nat), n < 64 →
      (st.is_need n = true ↔ Nat.testBit st.mandatory_params n = true)) ∧
    (∀ (st : StateParser) (config : PathMap) (num : Nat)
      (f : PathMap → Except String ConfigParamEnum) (e : String),
      config.get_obj ("p" ++ toString num) = .error e →
      st.parse_parameter config num f =
        (if st.is_need num then
          .error ("parameter p" ++ toString num ++ " not found: " ++ e)
         else .ok st)) ∧
    (∀ (st : StateParser) (config : PathMap) (num : Nat)
      (f : List JVal → Except String ConfigParamEnum) (e : String),
      config.get_vec ("p" ++ toString num) = .error e →
      st.parse_array config num f =
        (if st.is_need num then
          .error ("parameter p" ++ toString num ++ " not found: " ++ e)
         else .ok st)) ∧
    (∀ (st : StateParser) (config : PathMap) (num : Nat)
      (f : UInt256 → Except String ConfigParamEnum) (e : String),
      config.get_uint256 ("p" ++ toString num) = .error e →
      st.parse_uint256 config num f =
        (if st.is_need num then
          .error ("parameter p" ++ toString num ++ " not found: " ++ e)
         else .ok st)) := by
  refine ⟨?_, ?_, ?_, ?_⟩
  · intro st n _
    simp [StateParser.is_need, Nat.testBit, Nat.and_comm]
  · intro st config num f e h
    simp only [StateParser.parse_parameter, h]
  · intro st config num f e h
    simp only [StateParser.parse_array, h]
  · intro st config num f e h
    simp only [StateParser.parse_uint256, h]

/-- C7 witness: the gate applied concretely — over the empty map, parameter
3 fails for a parser whose mask has bit 3 set (and `is_need 3` matches
`testBit`), and is silently skipped for the all-optional parser. -/
theorem adapter_mandatory_gate_witness :
    ((⟨ShardStateUnsplit.with_ident ShardIdent.masterchain, {}, 8⟩ :
        StateParser).is_need 3 = true ↔
      Nat.testBit 8 3 = true) ∧
    (⟨ShardStateUnsplit.with_ident ShardIdent.masterchain, {}, 8⟩ :
        StateParser).parse_parameter (PathMap.new []) 3
        (fun _ => .ok (.param13 [])) =
      .error "parameter p3 not found: root must have the field `p3`" ∧
    StateParser.new.parse_parameter (PathMap.new []) 3
        (fun _ => .ok (.param13 [])) = .ok StateParser.new := by
  refine ⟨adapter_mandatory_gate.1 _ 3 (by decide), ?_, ?_⟩
  · rw [adapter_mandatory_gate.2.1 _ (PathMap.new []) 3
      (fun _ => .ok (.param13 []))
      "root must have the field `p3`" rfl]
    rfl
  · rw [adapter_mandatory_gate.2.1 StateParser.new (PathMap.new []) 3
      (fun _ => .ok (.param13 []))
      "root must have the field `p3`" rfl]
    rfl

/-- C8: in state parsing, `global_id`, `gen_utime` and `total_balance` are
each independently optional under a uniform gate — a stage whose field is
unreadable fails with that error when the mandatory mask is nonzero, and
leaves the parser untouched when the mask is exactly zero; consequently a
nonzero-mask parse of a map with any of the three unreadable fails whole,
and a successful zero-mask parse keeps the default value for every
unreadable field. -/
theorem state_root_fields_gate :
    (∀ (st : StateParser) (mp : PathMap) (e : String),
      st.mandatory_params ≠ 0 → mp.get_num "global_id" = .error e →
      st.stepGlobalId mp = .error e) ∧
    (∀ (st : StateParser) (mp : PathMap) (e : String),
      st.mandatory_params ≠ 0 → mp.get_num "gen_utime" = .error e →
      st.stepGenUtime mp = .error e) ∧
    (∀ (st : StateParser) (mp : PathMap) (e : String),
      st.mandatory_params ≠ 0 → mp.get_grams "total_balance" = .error e →
      st.stepTotalBalance mp = .error e) ∧
    (∀ (st : StateParser) (mp : PathMap) (e : String),
      st.mandatory_params = 0 → mp.get_num "global_id" = .error e →
      st.stepGlobalId mp = .ok st) ∧
    (∀ (st : StateParser) (mp : PathMap) (e : String),
      st.mandatory_params = 0 → mp.get_num "gen_utime" = .error e →
      st.stepGenUtime mp = .ok st) ∧
    (∀ (st : StateParser) (mp : PathMap) (e : String),
      st.mandatory_params = 0 → mp.get_grams "total_balance" = .error e →
      st.stepTotalBalance mp = .ok st) ∧
    (∀ (p : StateParser) (map : JMap), p.mandatory_params ≠ 0 →
      ((∃ e, (PathMap.new map).get_num "global_id" = .error e) ∨
       (∃ e, (PathMap.new map).get_num "gen_utime" = .error e) ∨
       (∃ e, (PathMap.new map).get_grams "total_balance" = .error e)) →
      ∃ err, p.parse_state_unchecked map = .error err) ∧
    (∀ (map : JMap) (s : ShardStateUnsplit),
      StateParser.new.parse_state_unchecked map = .ok s →
      ((∃ e, (PathMap.new map).get_num "global_id" = .error e) →
        s.global_id = 0) ∧
      ((∃ e, (PathMap.new map).get_num "gen_utime" = .error e) →
        s.gen_time = 0) ∧
      ((∃ e, (PathMap.new map).get_grams "total_balance" = .error e) →
        s.total_balance = {})) := by
  refine ⟨fun st mp e hm hg => stepGlobalId_fail hg hm,
    fun st mp e hm hg => stepGenUtime_fail hg hm,
    fun st mp e hm hg => stepTotalBalance_fail hg hm,
    ?_, ?_, ?_, ?_, ?_⟩
  · intro st mp e hm hg
    unfold StateParser.stepGlobalId
    rw [hg]
    simp [hm]
  · intro st mp e hm hg
    unfold StateParser.stepGenUtime
    rw [hg]
    simp [hm]
  · intro st mp e hm hg
    unfold StateParser.stepTotalBalance
    rw [hg]
    simp [hm]
  · intro p map hm hdisj
    unfold StateParser.parse_state_unchecked
    have hm0 : ({ p with state :=
        { p.state with min_ref_mc_seqno := 0xFFFFFFFF } } :
        StateParser).mandatory_params ≠ 0 := hm
    rcases hdisj with ⟨e, he⟩ | ⟨e, he⟩ | ⟨e, he⟩
    · refine ⟨e, ?_⟩
      rw [stepGlobalId_fail he hm0, bind_error_eq]
    · rcases h1 : StateParser.stepGlobalId { p with state :=
          { p.state with min_ref_mc_seqno := 0xFFFFFFFF } }
          (PathMap.new map) with e1 | p1
      · exact ⟨e1, by rw [bind_error_eq]⟩
      · have hm1 : p1.mandatory_params ≠ 0 := by
          rw [(stepGlobalId_ok h1).1]
          exact hm0
        refine ⟨e, ?_⟩
        simp only [bind_ok_eq, stepGenUtime_fail he hm1, bind_error_eq]
    · rcases h1 : StateParser.stepGlobalId { p with state :=
          { p.state with min_ref_mc_seqno := 0xFFFFFFFF } }
          (PathMap.new map) with e1 | p1
      · exact ⟨e1, by rw [bind_error_eq]⟩
      · have hm1 : p1.mandatory_params ≠ 0 := by
          rw [(stepGlobalId_ok h1).1]
          exact hm0
        rcases h2 : p1.stepGenUtime (PathMap.new map) with e2 | p2
        · exact ⟨e2, by simp only [bind_ok_eq, h2, bind_error_eq]⟩
        · have hm2 : p2.mandatory_params ≠ 0 := by
            rw [(stepGenUtime_ok h2).1]
            exact hm1
          refine ⟨e, ?_⟩
          simp only [bind_ok_eq, h2,
            stepTotalBalance_fail he hm2, bind_error_eq]
  · intro map s h
    unfold StateParser.parse_state_unchecked at h
    obtain ⟨p1, h1, h⟩ := except_bind_ok h
    obtain ⟨p2, h2, h⟩ := except_bind_ok h
    obtain ⟨p3, h3, h⟩ := except_bind_ok h
    obtain ⟨p4, h4, h⟩ := except_bind_ok h
    obtain ⟨p5, h5, h⟩ := except_bind_ok h
    obtain ⟨p6, h6, h⟩ := except_bind_ok h
    injection h with h
    subst h
    have hm1 : p1.mandatory_params = 0 := (stepGlobalId_ok h1).1
    have hm2 : p2.mandatory_params = 0 := by
      rw [(stepGenUtime_ok h2).1]
      exact hm1
    refine ⟨?_, ?_, ?_⟩
    · rintro ⟨e, he⟩
      have hskip := stepGlobalId_skip he rfl h1
      rw [(stepLibraries_fields h6).1, (stepAccounts_fields h5).1,
        (stepMaster_fields h4).1, (stepTotalBalance_ok h3).2.1,
        (stepGenUtime_ok h2).2.1, hskip]
      rfl
    · rintro ⟨e, he⟩
      have hskip := stepGenUtime_skip he hm1 h2
      rw [(stepLibraries_fields h6).2.1, (stepAccounts_fields h5).2.1,
        (stepMaster_fields h4).2.1, (stepTotalBalance_ok h3).2.2,
        hskip, (stepGlobalId_ok h1).2.1]
      rfl
    · rintro ⟨e, he⟩
      have hskip := stepTotalBalance_skip he hm2 h3
      rw [(stepLibraries_fields h6).2.2, (stepAccounts_fields h5).2.2,
        (stepMaster_fields h4).2.2, hskip, (stepGenUtime_ok h2).2.2,
        (stepGlobalId_ok h1).2.2]
      rfl

/-- C8 witness: the gate applied concretely to the empty map — the genesis
(nonzero-mask) parser fails whole, and the snapshot (zero-mask) parser
succeeds with every root field at its default. -/
theorem state_root_fields_gate_witness :
    (∃ err, StateParser.for_zero_state.parse_state_unchecked [] = .error err) ∧
    StateParser.new.parse_state_unchecked [] = .ok c8_default_state ∧
    c8_default_state.global_id = 0 ∧ c8_default_state.gen_time = 0 ∧
    c8_default_state.total_balance = {} :=
  ⟨state_root_fields_gate.2.2.2.2.2.2.1 StateParser.for_zero_state []
      (by decide)
      (Or.inl ⟨"root/global_id must be the integer or a string with the integer",
        rfl⟩),
   rfl,
   (state_root_fields_gate.2.2.2.2.2.2.2 [] c8_default_state rfl).1
     ⟨"root/global_id must be the integer or a string with the integer", rfl⟩,
   (state_root_fields_gate.2.2.2.2.2.2.2 [] c8_default_state rfl).2.1
     ⟨"root/gen_utime must be the integer or a string with the integer", rfl⟩,
   (state_root_fields_gate.2.2.2.2.2.2.2 [] c8_default_state rfl).2.2
     ⟨"root/total_balance must be the integer or a string with the integer", rfl⟩⟩

/-- C9: the narrowing helpers `get_u8`/`get_u16`/`get_u32` overwrite the
caller-supplied slot with the narrowed `get_num` result when `get_num`
succeeds, leave the slot exactly unchanged when it fails, and (being total
functions) never raise an error themselves. -/
theorem narrowing_helpers_frame :
    (∀ (pm : PathMap) (name : String) (v : Nat) (n : Int),
      pm.get_num name = .ok n → pm.get_u32 name v = u32_cast n) ∧
    (∀ (pm : PathMap) (name : String) (v : Nat) (e : String),
      pm.get_num name = .error e → pm.get_u32 name v = v) ∧
    (∀ (pm : PathMap) (name : String) (v : Nat) (n : Int),
      pm.get_num name = .ok n → pm.get_u16 name v = u16_cast n) ∧
    (∀ (pm : PathMap) (name : String) (v : Nat) (e : String),
      pm.get_num name = .error e → pm.get_u16 name v = v) ∧
    (∀ (pm : PathMap) (name : String) (v : Nat) (n : Int),
      pm.get_num name = .ok n → pm.get_u8 name v = u8_cast n) ∧
    (∀ (pm : PathMap) (name : String) (v : Nat) (e : String),
      pm.get_num name = .error e → pm.get_u8 name v = v) := by
  refine ⟨?_, ?_, ?_, ?_, ?_, ?_⟩ <;> intro pm name v x h <;>
    simp only [PathMap.get_u32, PathMap.get_u16, PathMap.get_u8, h]

/-- C9 witness: the frame facts applied concretely — a present numeric field
overwrites the slot (wrapping), an absent field leaves the slot's prior
value 7 untouched. -/
theorem narrowing_helpers_frame_witness :
    (PathMap.new [("x", JVal.num 4294967297)]).get_u32 "x" 7 = 1 ∧
    (PathMap.new []).get_u32 "x" 7 = 7 ∧
    (PathMap.new []).get_u16 "x" 7 = 7 ∧
    (PathMap.new []).get_u8 "x" 7 = 7 := by
  refine ⟨?_, ?_, ?_, ?_⟩
  · rw [narrowing_helpers_frame.1 (PathMap.new [("x", JVal.num 4294967297)])
      "x" 7 4294967297 rfl]
    rfl
  · exact narrowing_helpers_frame.2.1 (PathMap.new []) "x" 7
      "root/x must be the integer or a string with the integer" rfl
  · exact narrowing_helpers_frame.2.2.2.1 (PathMap.new []) "x" 7
      "root/x must be the integer or a string with the integer" rfl
  · exact narrowing_helpers_frame.2.2.2.2.2 (PathMap.new []) "x" 7
      "root/x must be the integer or a string with the integer" rfl

/-- C10: narrowing of `get_num` results is silent truncation modulo the
target width, never a range error — `get_num16` returns the value modulo
`2^16`, and the eight casts of `parse_critical_params` store each value
modulo `2^8` / `2^32`, so out-of-range JSON numbers are accepted wrapped
rather than rejected. -/
theorem config_numeric_truncation :
    (∀ (pm : PathMap) (name : String) (n : Int),
      pm.get_num name = .ok n →
      pm.get_num16 name = .ok ((n % (2 ^ 16 : Int)).toNat)) ∧
    (∀ (params : PathMap) (v1 v2 v3 v4 v5 v6 v7 v8 : Int),
      params.get_num "min_tot_rounds" = .ok v1 →
      params.get_num "max_tot_rounds" = .ok v2 →
      params.get_num "min_wins" = .ok v3 →
      params.get_num "max_losses" = .ok v4 →
      params.get_num "min_store_sec" = .ok v5 →
      params.get_num "max_store_sec" = .ok v6 →
      params.get_num "bit_price" = .ok v7 →
      params.get_num "cell_price" = .ok v8 →
      StateParser.parse_critical_params params =
        .ok ⟨(v1 % (2 ^ 8 : Int)).toNat, (v2 % (2 ^ 8 : Int)).toNat,
          (v3 % (2 ^ 8 : Int)).toNat, (v4 % (2 ^ 8 : Int)).toNat,
          (v5 % (2 ^ 32 : Int)).toNat, (v6 % (2 ^ 32 : Int)).toNat,
          (v7 % (2 ^ 32 : Int)).toNat, (v8 % (2 ^ 32 : Int)).toNat⟩) := by
  constructor
  · intro pm name n h
    simp only [PathMap.get_num16, h, Except.map]
    rfl
  · intro params v1 v2 v3 v4 v5 v6 v7 v8 h1 h2 h3 h4 h5 h6 h7 h8
    simp only [StateParser.parse_critical_params, h1, h2, h3, h4, h5, h6, h7,
      h8, bind_ok_eq]
    rfl

/-- C10 witness: the truncation applied concretely — `min_tot_rounds = 300`
wraps to `300 mod 256 = 44` in the `u8` slot instead of being rejected, and
`get_num16` of 70000 yields `70000 mod 65536 = 4464`. -/
theorem config_numeric_truncation_witness :
    StateParser.parse_critical_params (PathMap.new c10_map) =
      .ok ⟨44, 4, 2, 2, 1000000, 10000000, 1, 500⟩ ∧
    (PathMap.new [("x", JVal.num 70000)]).get_num16 "x" = .ok 4464 := by
  constructor
  · rw [config_numeric_truncation.2 (PathMap.new c10_map)
      300 4 2 2 1000000 10000000 1 500 rfl rfl rfl rfl rfl rfl rfl rfl]
    norm_num
    refine ⟨rfl, rfl, rfl, rfl, rfl, rfl⟩
  · rw [config_numeric_truncation.1 (PathMap.new [("x", JVal.num 70000)])
      "x" 70000 rfl]
    norm_num
    rfl
